import Mathlib

/-!
Verification development for the Lixpi LLM gateway service.

This file shallowly embeds the parts of the Python code base that the
specification's testable properties talk about:

* `src/services/llm-api/src/utils/attachments.py` — attachment/content
  normalisation pipeline (`parse_nats_object_ref`, `parse_data_url`,
  `resolve_image_urls`, `convert_content_for_anthropic`,
  `convert_content_for_openai`, `convert_attachments_for_provider`);
* `src/packages/lixpi/nats-service/python/nats_service.py` and
  `src/services/llm-api/src/nats_client/client.py` — self-issued JWT
  signing, the subscription wildcard filter and the subscription registry;
* `src/services/llm-api/src/services/usage_reporter.py` — pricing;
* `src/services/llm-api/src/providers/base.py`, `openai/provider.py`,
  `anthropic/provider.py` — the per-request streaming state machine;
* `src/services/llm-api/src/providers/registry.py` — instance registry.

Python strings are embedded as `List Char`, Python byte strings as
`List Nat` (each entry `< 256`), JSON-like Python values as the inductive
`JVal`, and Python `dict`s as ordered association lists.  Vendor SDK
streams, the object store, the image uploader and the wall clock are
passed in as explicit oracles.
-/

namespace Lixpi

/-- A Python `str`, embedded as its list of characters. -/
abbrev Str := List Char

/-- Bytes of a Python `bytes` value (each entry is `< 256`). -/
abbrev Bytes := List Nat

/-- Convert a Lean string literal to the `Str` embedding. -/
def lit (s : String) : Str := s.data

/-- A JSON-like Python value: the payloads moved around by the service.
Python `dict`s are embedded as ordered association lists (insertion
order), mirroring CPython's ordered dictionaries. -/
inductive JVal where
  | null
  | bool (b : Bool)
  | num (n : Int)
  | str (s : Str)
  | arr (xs : List JVal)
  | obj (fields : List (String × JVal))

/-- Shorthand for a JSON string value. -/
def jstr (s : String) : JVal := .str s.data

/-- Python exceptions surfaced by the embedded code. -/
inductive PyErr where
  | keyError (key : String)
  | attributeError (msg : String)
  | valueError (msg : String)
  | runtimeError (msg : String)

/-- Outcome of running a piece of Python code that mutates a state dict:
either the final state, or a raised exception together with the state at
raise time (callers share the mutated dict, so the mutations survive the
raise). -/
inductive PyResult (α : Type) where
  | ok (a : α)
  | exn (e : PyErr) (st : α)

/-- Python `str(e)` for the embedded exceptions (`str` of a `KeyError`
is the quoted key). -/
def PyErr.toPyStr : PyErr → String
  | .keyError k => "'" ++ k ++ "'"
  | .attributeError m => m
  | .valueError m => m
  | .runtimeError m => m

/-- Rendering of a possibly-`None` Python string into an f-string
(`None` prints as `"None"`). -/
def pyStr : Option String → String
  | some s => s
  | none => "None"

/-- Python truthiness of an optional string (`None` and `''` are falsy). -/
def truthyStr : Option String → Bool
  | some s => s ≠ ""
  | none => false

/-- Python `dict.get(k)`: first binding of `k`, or `None` when absent. -/
def jget (fields : List (String × JVal)) (k : String) : Option JVal :=
  (fields.find? (fun p => p.1 == k)).map (fun p => p.2)

/-- Python `dict.get(k, default)`. -/
def jgetD (fields : List (String × JVal)) (k : String) (d : JVal) : JVal :=
  (jget fields k).getD d

/-- Python `{**block, k: v}`: replace the binding of `k` in place when it
exists (insertion order preserved), otherwise append it. -/
def jset (fields : List (String × JVal)) (k : String) (v : JVal) :
    List (String × JVal) :=
  if fields.any (fun p => p.1 == k) then
    fields.map (fun p => if p.1 == k then (k, v) else p)
  else
    fields ++ [(k, v)]

end Lixpi

namespace Lixpi.Attachments

open Lixpi

/-- Split `s` at the first occurrence of `c` (Python `s.split(c, 1)` when it
produces two parts); `none` when `c` does not occur. -/
def splitFirst (s : Str) (c : Char) : Option (Str × Str) :=
  let pre := s.takeWhile (fun x => x ≠ c)
  match s.drop pre.length with
  | [] => none
  | _ :: tail => some (pre, tail)

/-- `parse_nats_object_ref` from `utils/attachments.py`: parse
`nats-obj://bucket/key` into `(bucket, key)`, `none` otherwise. -/
def parse_nats_object_ref (ref : Str) : Option (Str × Str) :=
  if (lit "nats-obj://").isPrefixOf ref then
    splitFirst (ref.drop (lit "nats-obj://").length) '/'
  else
    none

/-- `parse_data_url` from `utils/attachments.py`: the regex
`data:([^;]+);base64,(.+)` (DOTALL) anchored at the start.  Returns
`(media_type, base64_data)`; the Python function raises `ValueError` when
the regex does not match, and every caller maps that failure to `None`,
so the embedding returns an `Option`. -/
def parse_data_url (data_url : Str) : Option (Str × Str) :=
  if (lit "data:").isPrefixOf data_url then
    let t := data_url.drop (lit "data:").length
    let media := t.takeWhile (fun x => x ≠ ';')
    if media = [] then none
    else
      let rest := t.drop media.length
      if (lit ";base64,").isPrefixOf rest then
        let d := rest.drop (lit ";base64,").length
        if d = [] then none else some (media, d)
      else none
  else none

/-- Is `v` the JSON string `s`?  Embeds Python's `value == 'literal'`
comparison of a `dict.get` result against a string literal (absent keys
and non-string values compare unequal). -/
def isStrEq (v : Option JVal) (s : String) : Bool :=
  match v with
  | some (.str t) => t == s.data
  | _ => false

/-- `_convert_image_block_to_anthropic`: convert an `input_image` block to
the Anthropic `image` shape.  A `data:` URL that fails `parse_data_url`
yields `none` (the Python code catches the `ValueError` and returns
`None`); a non-string `image_url` raises `AttributeError` in Python
(`url.startswith`), embedded as the error case. -/
def convert_image_block_to_anthropic (fields : List (String × JVal)) :
    Except PyErr (Option JVal) :=
  match jgetD fields "image_url" (jstr "") with
  | .str url =>
    if (lit "data:").isPrefixOf url then
      match parse_data_url url with
      | some (media, d) =>
        .ok (some (.obj [("type", jstr "image"),
          ("source", .obj [("type", jstr "base64"),
            ("media_type", .str media), ("data", .str d)])]))
      | none => .ok none
    else
      .ok (some (.obj [("type", jstr "image"),
        ("source", .obj [("type", jstr "url"), ("url", .str url)])]))
  | _ => .error (.attributeError "startswith")

/-- `_convert_file_block_to_anthropic`: convert a `file` block to the
Anthropic `document` shape; only a `data:` URL is accepted, everything
else yields `None`.  (The `mime_type` read in the source is unused by the
produced block.) -/
def convert_file_block_to_anthropic (fields : List (String × JVal)) :
    Except PyErr (Option JVal) :=
  match jgetD fields "file" (.obj []) with
  | .obj fileObj =>
    match jgetD fileObj "url" (jstr "") with
    | .str url =>
      if (lit "data:").isPrefixOf url then
        match parse_data_url url with
        | some (media, d) =>
          .ok (some (.obj [("type", jstr "document"),
            ("source", .obj [("type", jstr "base64"),
              ("media_type", .str media), ("data", .str d)])]))
        | none => .ok none
      else .ok none
    | _ => .error (.attributeError "startswith")
  | _ => .error (.attributeError "get")

/-- `_convert_content_block_to_anthropic`: dispatch a single block on its
`type` field; unknown types yield `None` (dropped with a warning). -/
def convert_content_block_to_anthropic (fields : List (String × JVal)) :
    Except PyErr (Option JVal) :=
  if isStrEq (jget fields "type") "input_text" then
    .ok (some (.obj [("type", jstr "text"),
      ("text", jgetD fields "text" (jstr ""))]))
  else if isStrEq (jget fields "type") "input_image" then
    convert_image_block_to_anthropic fields
  else if isStrEq (jget fields "type") "file" then
    convert_file_block_to_anthropic fields
  else
    .ok none

/-- The block loop of `convert_content_for_anthropic`: non-`dict` entries
are skipped, converted blocks are collected in order, dropped blocks
(`None`) are omitted.  (Every block the converters return is a non-empty
`dict`, so Python's `if converted:` truthiness test is `isSome`.) -/
def convert_blocks_anthropic : List JVal → Except PyErr (List JVal)
  | [] => .ok []
  | b :: rest =>
    match b with
    | .obj fields =>
      match convert_content_block_to_anthropic fields with
      | .error e => .error e
      | .ok none => convert_blocks_anthropic rest
      | .ok (some out) => (convert_blocks_anthropic rest).map (fun l => out :: l)
    | _ => convert_blocks_anthropic rest

/-- `convert_content_for_anthropic`: strings and non-list values pass
through; for a list the converted blocks are collected and an empty
result collapses to the empty string. -/
def convert_content_for_anthropic (content : JVal) : Except PyErr JVal :=
  match content with
  | .str s => .ok (.str s)
  | .arr blocks =>
    match convert_blocks_anthropic blocks with
    | .error e => .error e
    | .ok converted =>
      .ok (if converted.isEmpty then jstr "" else .arr converted)
  | v => .ok v

/-- The per-block validation of `convert_content_for_openai`:
`input_text` and `input_image` blocks are rebuilt field-by-field (with a
`detail` default of `'auto'`), `file` blocks pass through unchanged,
unknown types and non-`dict` entries are dropped. -/
def validate_block_openai (b : JVal) : Option JVal :=
  match b with
  | .obj fields =>
    if isStrEq (jget fields "type") "input_text" then
      some (.obj [("type", jstr "input_text"),
        ("text", jgetD fields "text" (jstr ""))])
    else if isStrEq (jget fields "type") "input_image" then
      some (.obj [("type", jstr "input_image"),
        ("image_url", jgetD fields "image_url" (jstr "")),
        ("detail", jgetD fields "detail" (jstr "auto"))])
    else if isStrEq (jget fields "type") "file" then
      some (.obj fields)
    else
      none
  | _ => none

/-- `convert_content_for_openai`: strings and non-list values pass
through; list content is validated block-by-block and an empty result
collapses to the empty string.  This path performs no string-method
calls, so it is total. -/
def convert_content_for_openai (content : JVal) : JVal :=
  match content with
  | .str s => .str s
  | .arr blocks =>
    let validated := blocks.filterMap validate_block_openai
    if validated.isEmpty then jstr "" else .arr validated
  | v => v

/-- The two target formats of `AttachmentFormat`. -/
inductive AttachmentFormat where
  | openai
  | anthropic
deriving DecidableEq

/-- `convert_attachments_for_provider`: dispatch on the target format. -/
def convert_attachments_for_provider (content : JVal) :
    AttachmentFormat → Except PyErr JVal
  | .anthropic => convert_content_for_anthropic content
  | .openai => .ok (convert_content_for_openai content)

/-- Result of an object-store fetch (`nats_client.get_object`): either
the bytes that came back, or an exception during the fetch. -/
inductive FetchResult where
  | ok (data : Bytes)
  | exc

/-- The magic-byte MIME sniffing inside `resolve_image_urls`: JPEG
`FF D8`, GIF `GIF8`, WEBP `RIFF....WEBP`, PNG signature; default
`image/png`, and anything of length `≤ 4` keeps the default. -/
def detect_mime (data : Bytes) : Str :=
  if data.length > 4 then
    if data.take 2 = [0xff, 0xd8] then lit "image/jpeg"
    else if data.take 4 = [71, 73, 70, 56] then lit "image/gif"
    else if data.take 4 = [82, 73, 70, 70] ∧ data.length > 12 ∧
        (data.drop 8).take 4 = [87, 69, 66, 80] then lit "image/webp"
    else if data.take 8 = [0x89, 80, 78, 71, 13, 10, 26, 10] then lit "image/png"
    else lit "image/png"
  else lit "image/png"

end Lixpi.Attachments

namespace Lixpi.B64

open Lixpi

/-- The 6-bit groups of base64: 3 input bytes become 4 indices, a final
byte becomes 2, two final bytes become 3 (bit layout of RFC 4648, with
`b / 4 = b >> 2`, `b % 4 * 16 = (b & 3) << 4`, and so on). -/
def b64Indices : Bytes → List Nat
  | [] => []
  | [b1] => [b1 / 4, b1 % 4 * 16]
  | [b1, b2] => [b1 / 4, b1 % 4 * 16 + b2 / 16, b2 % 16 * 4]
  | b1 :: b2 :: b3 :: rest =>
    (b1 / 4) :: (b1 % 4 * 16 + b2 / 16) :: (b2 % 16 * 4 + b3 / 64) ::
      (b3 % 64) :: b64Indices rest

/-- Standard base64 alphabet (used by Python's `base64.b64encode`). -/
def stdAlphabet : Str :=
  lit "ABCDEFGHIJKLMNOPQRSTUVWXYZabcdefghijklmnopqrstuvwxyz0123456789+/"

/-- URL-safe base64 alphabet (used by `base64.urlsafe_b64encode`). -/
def urlAlphabet : Str :=
  lit "ABCDEFGHIJKLMNOPQRSTUVWXYZabcdefghijklmnopqrstuvwxyz0123456789-_"

/-- `=` padding appended by padded base64 for a given input length. -/
def b64Pad (n : Nat) : Str :=
  match n % 3 with
  | 1 => lit "=="
  | 2 => lit "="
  | _ => []

/-- Python `base64.b64encode(data).decode('utf-8')` (standard alphabet,
with padding). -/
def b64encode (data : Bytes) : Str :=
  (b64Indices data).map (fun i => stdAlphabet.getD i 'A') ++ b64Pad data.length

/-- Python `base64.urlsafe_b64encode(data).rstrip(b'=')` (URL-safe
alphabet, padding stripped). -/
def b64urlEncode (data : Bytes) : Str :=
  (b64Indices data).map (fun i => urlAlphabet.getD i 'A')

/-- Index of a character in the URL-safe alphabet. -/
def b64urlIndex (c : Char) : Option Nat :=
  urlAlphabet.indexOf? c

/-- Reassemble bytes from unpadded base64 index groups (the inverse bit
layout of `b64Indices`); a trailing group of one index is malformed. -/
def b64DeIndices : List Nat → Option Bytes
  | [] => some []
  | [_] => none
  | [i1, i2] => some [i1 * 4 + i2 / 16]
  | [i1, i2, i3] => some [i1 * 4 + i2 / 16, i2 % 16 * 16 + i3 / 4]
  | i1 :: i2 :: i3 :: i4 :: rest =>
    (b64DeIndices rest).map (fun bs =>
      (i1 * 4 + i2 / 16) :: (i2 % 16 * 16 + i3 / 4) :: (i3 % 4 * 64 + i4) :: bs)

/-- Map each character to its alphabet index, failing on foreign
characters. -/
def b64urlIndices : Str → Option (List Nat)
  | [] => some []
  | c :: rest =>
    match b64urlIndex c, b64urlIndices rest with
    | some i, some is => some (i :: is)
    | _, _ => none

/-- Unpadded URL-safe base64 decoding. -/
def b64urlDecode (s : Str) : Option Bytes :=
  match b64urlIndices s with
  | some is => b64DeIndices is
  | none => none

end Lixpi.B64

namespace Lixpi.Attachments

open Lixpi Lixpi.B64

/-- The `input_image` arm of the block loop in `resolve_image_urls`:
`data:` URLs pass through; a parseable `nats-obj://bucket/key` reference
with a client present is fetched, and on success (non-empty bytes) the
block's `image_url` is rewritten to a
`data:<mime>;base64,<b64>` URL; fetch exceptions, missing objects
(`None`/empty, which are falsy), unparseable references and a missing
client all retain the original block.  A non-string `image_url` raises
`AttributeError` in Python. -/
def resolve_block (fetch : Option (Str → Str → FetchResult)) (b : JVal) :
    Except PyErr JVal :=
  match b with
  | .obj fields =>
    if isStrEq (jget fields "type") "input_image" then
      match jgetD fields "image_url" (jstr "") with
      | .str url =>
        if (lit "data:").isPrefixOf url then .ok (.obj fields)
        else
          match parse_nats_object_ref url, fetch with
          | some (bucket, key), some f =>
            match f bucket key with
            | .ok data =>
              if data.isEmpty then .ok (.obj fields)
              else
                .ok (.obj (jset fields "image_url"
                  (.str (lit "data:" ++ detect_mime data ++ lit ";base64," ++
                    b64encode data))))
            | .exc => .ok (.obj fields)
          | _, _ => .ok (.obj fields)
      | _ => .error (.attributeError "startswith")
    else .ok b
  | _ => .ok b

/-- The block loop of `resolve_image_urls`, in input order. -/
def resolve_blocks (fetch : Option (Str → Str → FetchResult)) :
    List JVal → Except PyErr (List JVal)
  | [] => .ok []
  | b :: rest =>
    match resolve_block fetch b with
    | .error e => .error e
    | .ok rb => (resolve_blocks fetch rest).map (fun l => rb :: l)

/-- `resolve_image_urls(content, nats_client)`: strings and non-list
values pass through; list content is resolved block by block. -/
def resolve_image_urls (content : JVal)
    (fetch : Option (Str → Str → FetchResult)) : Except PyErr JVal :=
  match content with
  | .str s => .ok (.str s)
  | .arr blocks =>
    match resolve_blocks fetch blocks with
    | .error e => .error e
    | .ok resolved => .ok (.arr resolved)
  | v => .ok v

end Lixpi.Attachments

namespace Lixpi.Jwt

open Lixpi Lixpi.B64

/-- Lowercase hexadecimal digit (as used by `json.dumps` in `\uXXXX`). -/
def hexDigitChar (n : Nat) : Char :=
  (lit "0123456789abcdef").getD n '0'

/-- A `\uXXXX` escape for a code unit. -/
def uEscape (n : Nat) : Str :=
  ['\\', 'u', hexDigitChar (n / 4096 % 16), hexDigitChar (n / 256 % 16),
    hexDigitChar (n / 16 % 16), hexDigitChar (n % 16)]

/-- Escaping of one character by `json.dumps` with its default
`ensure_ascii=True`: quote and backslash are backslash-escaped, the five
short control escapes are used, remaining control characters and every
character `≥ 0x7f` become `\uXXXX` (a surrogate pair beyond the BMP),
and printable ASCII passes through. -/
def jsonEscapeChar (c : Char) : Str :=
  if c = '"' then ['\\', '"']
  else if c = '\\' then ['\\', '\\']
  else if c = '\n' then ['\\', 'n']
  else if c = '\t' then ['\\', 't']
  else if c = '\r' then ['\\', 'r']
  else if c.toNat = 8 then ['\\', 'b']
  else if c.toNat = 12 then ['\\', 'f']
  else if c.toNat < 0x20 ∨ c.toNat ≥ 0x7f then
    if c.toNat < 0x10000 then uEscape c.toNat
    else
      uEscape (0xd800 + (c.toNat - 0x10000) / 1024) ++
        uEscape (0xdc00 + (c.toNat - 0x10000) % 1024)
  else [c]

/-- A JSON string literal with escaping. -/
def jsonString (s : Str) : Str :=
  '"' :: (s.flatMap jsonEscapeChar) ++ ['"']

/-- The primitive JSON values appearing in the JWT header and claims. -/
inductive JsonPrim where
  | pstr (s : Str)
  | pint (n : Int)

/-- A decimal digit character. -/
def digitChar (d : Nat) : Char :=
  (lit "0123456789").getD d '0'

/-- Decimal rendering of a natural number (most significant digit
first), as Python's `str` produces inside `json.dumps`. -/
def natToStr (n : Nat) : Str :=
  if n < 10 then [digitChar n]
  else natToStr (n / 10) ++ [digitChar (n % 10)]
decreasing_by omega

/-- Decimal rendering of an integer (`-` sign for negatives). -/
def intToStr (n : Int) : Str :=
  if n < 0 then '-' :: natToStr n.natAbs else natToStr n.toNat

/-- Serialize one primitive value. -/
def dumpPrim : JsonPrim → Str
  | .pstr s => jsonString s
  | .pint n => intToStr n

/-- Comma-join of the serialized `key:value` fields. -/
def joinFields : List Str → Str
  | [] => []
  | [f] => f
  | f :: rest => f ++ ',' :: joinFields rest

/-- `json.dumps(obj, separators=(',', ':'))` on a flat object: keys in
insertion order, no inter-key whitespace. -/
def json_dumps_compact (fields : List (String × JsonPrim)) : Str :=
  '\x7b' :: (joinFields (fields.map
    (fun p => jsonString p.1.data ++ ':' :: dumpPrim p.2))) ++ ['\x7d']

/-- An NKey pair, abstracting the external `nkeys` library
(`from_seed`): the base32 public key string and the deterministic
Ed25519 signing function over message bytes. -/
structure NKeyPair where
  publicKey : Str
  sign : Bytes → Bytes

/-- UTF-8 bytes of an ASCII string (`str.encode()`); every string this
development encodes is ASCII because `json.dumps` has
`ensure_ascii=True` and base64 output is ASCII. -/
def strBytes (s : Str) : Bytes := s.map Char.toNat

/-- The JWT header object `{typ: "JWT", alg: "EdDSA"}` in insertion
order. -/
def jwtHeader : List (String × JsonPrim) :=
  [("typ", .pstr (lit "JWT")), ("alg", .pstr (lit "EdDSA"))]

/-- The JWT claims object `{sub, iss, iat, exp}` in insertion order. -/
def jwtClaims (userId publicKey : Str) (now expiryHours : Int) :
    List (String × JsonPrim) :=
  [("sub", .pstr userId), ("iss", .pstr publicKey),
    ("iat", .pint now), ("exp", .pint (now + expiryHours * 3600))]

/-- `generate_self_issued_jwt(nkey_seed, user_id, expiry_hours)` from
`nats_service.py` (and, identically, `nats_client/client.py`), with the
external inputs made explicit: `fromSeed` stands for `nkeys.from_seed`
and `now` for `int(time.time())`. -/
def generate_self_issued_jwt (fromSeed : Str → NKeyPair)
    (nkeySeed userId : Str) (expiryHours : Int) (now : Int) : Str :=
  let kp := fromSeed nkeySeed
  let headerB64 := b64urlEncode (strBytes (json_dumps_compact jwtHeader))
  let claimsB64 := b64urlEncode (strBytes (json_dumps_compact
    (jwtClaims userId kp.publicKey now expiryHours)))
  let message := headerB64 ++ '.' :: claimsB64
  let signature := kp.sign (strBytes message)
  message ++ '.' :: b64urlEncode signature

/-- The same call with the default `expiry_hours=1`. -/
def generate_self_issued_jwt_default (fromSeed : Str → NKeyPair)
    (nkeySeed userId : Str) (now : Int) : Str :=
  generate_self_issued_jwt fromSeed nkeySeed userId 1 now

/-- Ed25519 verification against a public key, abstracted over the
external crypto library: a signature is valid for the keypair holding
the key iff it is that keypair's deterministic Ed25519 signature of the
message. -/
def ed25519Valid (kp : NKeyPair) (msg sig : Bytes) : Prop :=
  kp.sign msg = sig

/-- The encoded header part of every generated token (it does not
depend on the inputs). -/
def jwtHeaderB64 : Str :=
  b64urlEncode (strBytes (json_dumps_compact jwtHeader))

/-- The serialized claims object. -/
def jwtClaimsJson (userId publicKey : Str) (now expiryHours : Int) : Str :=
  json_dumps_compact (jwtClaims userId publicKey now expiryHours)

/-- The encoded claims part. -/
def jwtClaimsB64 (userId publicKey : Str) (now expiryHours : Int) : Str :=
  b64urlEncode (strBytes (jwtClaimsJson userId publicKey now expiryHours))

/-- The Ed25519 signing input `headerB64 ++ "." ++ claimsB64`. -/
def jwtSigningInput (userId publicKey : Str) (now expiryHours : Int) : Str :=
  jwtHeaderB64 ++ '.' :: jwtClaimsB64 userId publicKey now expiryHours

end Lixpi.Jwt

namespace Lixpi.UsageRep

/-- The pricing inputs that `UsageReporter.report_tokens_usage` reads
from `aiModelMetaInfo.pricing`: `resaleMargin`, `text.pricePer` and the
`text.tiers.default` prompt/completion prices.  Python performs this
arithmetic on `decimal.Decimal`; the embedding uses exact rationals, on
which every division the reported claims exercise is exact. -/
structure TextPricing where
  resaleMargin : ℚ
  pricePer : ℚ
  promptPrice : ℚ
  completionPrice : ℚ

/-- The priced part of the usage report built by `report_tokens_usage`:
`purchasedFor`/`soldToClientFor` for prompt, completion and total. -/
structure TokensUsageReport where
  promptPurchasedFor : ℚ
  promptSoldToClientFor : ℚ
  completionPurchasedFor : ℚ
  completionSoldToClientFor : ℚ
  totalPurchasedFor : ℚ
  totalSoldToClientFor : ℚ

/-- The pricing computation of `UsageReporter.report_tokens_usage`
(lines 70–86 of `usage_reporter.py`): resale prices are the vendor
prices times the margin, each cost is `price / pricePer * tokens`, and
totals are prompt plus completion. -/
def report_tokens_usage (pricing : TextPricing)
    (promptTokens completionTokens : ℕ) : TokensUsageReport :=
  let text_prompt_price_resale := pricing.promptPrice * pricing.resaleMargin
  let text_completion_price_resale :=
    pricing.completionPrice * pricing.resaleMargin
  let prompt_purchased_for :=
    pricing.promptPrice / pricing.pricePer * promptTokens
  let prompt_sold_for :=
    text_prompt_price_resale / pricing.pricePer * promptTokens
  let completion_purchased_for :=
    pricing.completionPrice / pricing.pricePer * completionTokens
  let completion_sold_for :=
    text_completion_price_resale / pricing.pricePer * completionTokens
  { promptPurchasedFor := prompt_purchased_for
    promptSoldToClientFor := prompt_sold_for
    completionPurchasedFor := completion_purchased_for
    completionSoldToClientFor := completion_sold_for
    totalPurchasedFor := prompt_purchased_for + completion_purchased_for
    totalSoldToClientFor := prompt_sold_for + completion_sold_for }

end Lixpi.UsageRep

namespace Lixpi.Provider

open Lixpi

/-- The `usage` dictionary both adapters store into the workflow state. -/
structure Usage where
  promptTokens : Nat
  promptAudioTokens : Nat
  promptCachedTokens : Nat
  completionTokens : Nat
  completionAudioTokens : Nat
  completionReasoningTokens : Nat
  totalTokens : Nat

/-- The `image_usage` dictionary set by the OpenAI adapter. -/
structure ImageUsage where
  generatedCount : Nat
  size : String
  quality : String

/-- The `status` values of `StreamStatus` in `providers/base.py`. -/
inductive Status where
  | startStream
  | streaming
  | endStream
  | errorStatus
  | imgPartial
  | imgComplete
deriving DecidableEq

/-- The `content` object of a stream event published on the receive
subject (`{status, aiProvider, text?, imageUrl?, fileId?, partialIndex?,
responseId?, revisedPrompt?}`); absent keys are `none`.  The `text`
value is a `JVal` because the (dead) Anthropic chunk path would place a
`None` there. -/
structure RecvContent where
  status : Status
  aiProvider : String
  text : Option JVal
  imageUrl : Option String
  fileId : Option String
  partialIndexField : Option Nat
  responseId : Option String
  revisedPrompt : Option String

/-- The payload published on the error subject by `_publish_error`:
`errorCode`/`errorType` are included only when truthy. -/
structure ErrorPayload where
  error : String
  instanceKey : String
  errorCode : Option String
  errorType : Option String

/-- One published NATS message: either a stream event on
`ai.interaction.chat.receiveMessage.<workspaceId>.<threadId>` or an
error payload on `ai.interaction.chat.error.<instanceKey>`. -/
inductive PubEvent where
  | recv (workspaceId threadId : String) (content : RecvContent)
  | errSubj (instanceKey : String) (payload : ErrorPayload)

/-- `_publish_stream_start`. -/
def publish_stream_start (ws th provider : String) : PubEvent :=
  .recv ws th ⟨.startStream, provider, none, none, none, none, none, none⟩

/-- `_publish_stream_chunk` (the `text` value as a JSON value). -/
def publish_stream_chunk (ws th provider : String) (text : JVal) : PubEvent :=
  .recv ws th ⟨.streaming, provider, some text, none, none, none, none, none⟩

/-- `_publish_stream_end` (carries `text: ''`). -/
def publish_stream_end (ws th provider : String) : PubEvent :=
  .recv ws th ⟨.endStream, provider, some (jstr ""), none, none, none, none, none⟩

/-- The publish inside `_publish_partial_image` (only reached after a
successful upload). -/
def publish_partial_image (ws th provider url fileId : String)
    (idx : Nat) : PubEvent :=
  .recv ws th ⟨.imgPartial, provider, none, some url, some fileId, some idx,
    none, none⟩

/-- The publish inside `_publish_image_complete` (only reached after a
successful upload). -/
def publish_image_complete (ws th provider url fileId respId rp : String) :
    PubEvent :=
  .recv ws th ⟨.imgComplete, provider, none, some url, some fileId, none,
    some respId, some rp⟩

/-- Keep an optional error code/type only when truthy (Python
`if error_code:`). -/
def truthyOpt (o : Option String) : Option String :=
  if truthyStr o then o else none

/-- `_publish_error`: instance key `"<ws>:<th>"`, payload with
conditionally included code and type. -/
def publish_error (ws th errMsg : String) (code ty : Option String) :
    PubEvent :=
  .errSubj (ws ++ ":" ++ th)
    ⟨errMsg, ws ++ ":" ++ th, truthyOpt code, truthyOpt ty⟩

/-- The workflow state dict (`ProviderState`) restricted to the fields
the modelled paths read or write.  `document_id` and `thread_id` are NOT
fields `process` initialises: they embed dict-key presence and are
always `none` in reachable states; the Anthropic adapter nevertheless
reads them.  Omitted: `event_meta`, `temperature`,
`max_completion_size`, `instance_key`, `enable_image_generation`
(request-assembly inputs that do not influence the published events or
the tracked fields). -/
structure PState where
  messages : List JVal
  workspace_id : Option String
  ai_chat_thread_id : Option String
  provider : String
  model_version : Option String
  image_size : String
  stream_active : Bool
  error : Option String
  error_code : Option String
  error_type : Option String
  usage : Option Usage
  image_usage : Option ImageUsage
  response_id : Option String
  ai_vendor_request_id : Option String
  ai_request_received_at : Option Int
  ai_request_finished_at : Option Int
  document_id : Option String
  thread_id : Option String

/-- The request payload fields `process` reads. -/
structure Request where
  workspaceId : Option String
  aiChatThreadId : Option String
  modelVersion : Option String
  messages : List JVal
  imageSize : Option String

/-- State initialisation at the top of `BaseLLMProvider.process`
(`ai_request_received_at = int(datetime.now().timestamp() * 1000)`). -/
def init_state (req : Request) (provider : String) (receivedAt : Int) :
    PState :=
  { messages := req.messages
    workspace_id := req.workspaceId
    ai_chat_thread_id := req.aiChatThreadId
    provider := provider
    model_version := req.modelVersion
    image_size := req.imageSize.getD "auto"
    stream_active := false
    error := none
    error_code := none
    error_type := none
    usage := none
    image_usage := none
    response_id := none
    ai_vendor_request_id := none
    ai_request_received_at := some receivedAt
    ai_request_finished_at := none
    document_id := none
    thread_id := none }

/-- `_validate_request`: presence (truthiness) checks on
`model_version`, `messages`, `workspace_id`, `ai_chat_thread_id`. -/
def validate_request (st : PState) : Except PyErr PState :=
  if ¬ truthyStr st.model_version then
    .error (.valueError "model_version is required")
  else if st.messages.isEmpty then
    .error (.valueError "messages list is required")
  else if ¬ truthyStr st.workspace_id then
    .error (.valueError "workspace_id is required")
  else if ¬ truthyStr st.ai_chat_thread_id then
    .error (.valueError "ai_chat_thread_id is required")
  else .ok st

/-- The structured error object carried by an OpenAI `response.failed`
event (read with `getattr` defaults: absent `message` becomes
`'Unknown error'`, absent `code`/`type` become `None`). -/
structure VendorErrorObj where
  message : Option String
  code : Option String
  errType : Option String

/-- The `usage` object of an OpenAI `response.completed` event (the
audio/cached/reasoning attributes are read via `getattr` with a `0`
default). -/
structure OAIUsage where
  input_tokens : Nat
  output_tokens : Nat
  input_tokens_audio : Option Nat
  input_tokens_cached : Option Nat
  output_tokens_audio : Option Nat
  output_tokens_reasoning : Option Nat

/-- An item of `response.output` scanned by
`_handle_image_generation_output`. -/
inductive OutputItem where
  | imageGenCall (result : Option String) (revisedPrompt : String)
  | otherItem

/-- The vendor stream events the OpenAI adapter dispatches on; every
unlisted `event.type` falls through the `match` untouched. -/
inductive OAIEvent where
  | outputTextDelta (delta : String)
  | imgPartialEvent (partial_image_b64 : Option String)
      (partial_image_index : Nat)
  | completed (id : String) (output : List OutputItem)
      (usage : Option OAIUsage)
  | failed (id : String) (errorObj : Option VendorErrorObj)
  | otherEvent (t : String)

/-- The external oracles of one OpenAI streaming call: the vendor event
stream, the iteration index from which `should_stop` reads true
(cooperative cancellation), and the image-store uploader
(`fileId, url` on HTTP 200, `none` on failure). -/
structure OAIEnv where
  events : List OAIEvent
  stopAt : Option Nat
  upload : String → Option (String × String)

/-- Is `should_stop` observed true at loop iteration `i`? -/
def stoppedAt (stopAt : Option Nat) (i : Nat) : Bool :=
  match stopAt with
  | some k => decide (k ≤ i)
  | none => false

/-- Usage extraction of the OpenAI adapter (`response.completed`):
`totalTokens = input_tokens + output_tokens`. -/
def extract_usage_openai (u : OAIUsage) : Usage :=
  { promptTokens := u.input_tokens
    promptAudioTokens := u.input_tokens_audio.getD 0
    promptCachedTokens := u.input_tokens_cached.getD 0
    completionTokens := u.output_tokens
    completionAudioTokens := u.output_tokens_audio.getD 0
    completionReasoningTokens := u.output_tokens_reasoning.getD 0
    totalTokens := u.input_tokens + u.output_tokens }

/-- `_handle_image_generation_output`: for every `image_generation_call`
item with a truthy `result` the image counts as generated and an upload
is attempted; only a successful upload publishes `IMAGE_COMPLETE`.
Returns the publishes (in output order) and `images_generated`. -/
def handle_image_gen (upload : String → Option (String × String))
    (ws th respId provider : String) :
    List OutputItem → List PubEvent × Nat
  | [] => ([], 0)
  | .imageGenCall result rp :: rest =>
    let (pubs, n) := handle_image_gen upload ws th respId provider rest
    if truthyStr result then
      match upload (result.getD "") with
      | some (fileId, url) =>
        (publish_image_complete ws th provider url fileId respId rp :: pubs,
          n + 1)
      | none => (pubs, n + 1)
    else (pubs, n)
  | .otherItem :: rest => handle_image_gen upload ws th respId provider rest

/-- The event loop of `OpenAIProvider._stream_impl` (lines 111–190):
`should_stop` is checked before each event; empty deltas and absent
partial images are skipped; `response.completed` records ids, images,
`image_usage` and `usage`; `response.failed` with a truthy error object
publishes the structured error on the error subject and raises
`RuntimeError`. -/
def oai_loop (env : OAIEnv) (ws th : String) :
    Nat → List OAIEvent → PState → List PubEvent × PyResult PState
  | _, [], st => ([], .ok st)
  | i, e :: rest, st =>
    if stoppedAt env.stopAt i then ([], .ok st)
    else
      match e with
      | .outputTextDelta d =>
        if d ≠ "" then
          let (pubs, r) := oai_loop env ws th (i + 1) rest st
          (publish_stream_chunk ws th "OpenAI" (.str d.data) :: pubs, r)
        else oai_loop env ws th (i + 1) rest st
      | .imgPartialEvent b idx =>
        if truthyStr b then
          match env.upload (b.getD "") with
          | some (fileId, url) =>
            let (pubs, r) := oai_loop env ws th (i + 1) rest st
            (publish_partial_image ws th "OpenAI" url fileId idx :: pubs, r)
          | none => oai_loop env ws th (i + 1) rest st
        else oai_loop env ws th (i + 1) rest st
      | .completed id output usage? =>
        let st1 := { st with response_id := some id,
                             ai_vendor_request_id := some id }
        let (imgPubs, n) := handle_image_gen env.upload ws th id "OpenAI" output
        let st2 :=
          if n > 0 then
            { st1 with image_usage := some ⟨n, st1.image_size, "high"⟩ }
          else st1
        let st3 :=
          match usage? with
          | some u => { st2 with usage := some (extract_usage_openai u) }
          | none => st2
        let (pubs, r) := oai_loop env ws th (i + 1) rest st3
        (imgPubs ++ pubs, r)
      | .failed id errorObj? =>
        match errorObj? with
        | none => oai_loop env ws th (i + 1) rest st
        | some eo =>
          let msg := eo.message.getD "Unknown error"
          let st' := { st with error := some msg, error_code := eo.code,
                               error_type := eo.errType,
                               response_id := some id }
          ([publish_error ws th msg eo.code eo.errType],
            .exn (.runtimeError ("OpenAI Responses API error: " ++ msg)) st')
      | .otherEvent _ => oai_loop env ws th (i + 1) rest st

/-- The request assembly of `OpenAIProvider._stream_impl` (lines 64–75),
which runs BEFORE the `try` block and hence before `START_STREAM`:
each message's content goes through `resolve_image_urls` and
`convert_attachments_for_provider(OPENAI)`; an exception there
propagates.  The assembled vendor input only feeds the (oracle) vendor
call, so its value is not tracked. -/
def assemble_openai (fetch : Option (Str → Str → Attachments.FetchResult)) :
    List JVal → Except PyErr Unit
  | [] => .ok ()
  | m :: rest =>
    match m with
    | .obj f =>
      match Attachments.resolve_image_urls (jgetD f "content" (jstr "")) fetch with
      | .error e => .error e
      | .ok c =>
        match Attachments.convert_attachments_for_provider c .openai with
        | .error e => .error e
        | .ok _ => assemble_openai fetch rest
    | _ => .error (.attributeError "get")

/-- `OpenAIProvider._stream_impl`: assembly, `START_STREAM`, the event
loop, then `END_STREAM` on normal loop exit (including a `should_stop`
break); on an exception the `except` clause sets `state['error']` when
unset and re-raises. -/
def openai_stream_impl (fetch : Option (Str → Str → Attachments.FetchResult))
    (env : OAIEnv) (st : PState) : List PubEvent × PyResult PState :=
  match assemble_openai fetch st.messages with
  | .error e => ([], .exn e st)
  | .ok _ =>
    let ws := pyStr st.workspace_id
    let th := pyStr st.ai_chat_thread_id
    let startPub := publish_stream_start ws th "OpenAI"
    match oai_loop env ws th 0 env.events st with
    | (pubs, .ok st') =>
      (startPub :: pubs ++ [publish_stream_end ws th "OpenAI"], .ok st')
    | (pubs, .exn e st') =>
      let st'' :=
        if truthyStr st'.error then st'
        else { st' with error := some e.toPyStr }
      (startPub :: pubs, .exn e st'')

/-- The external oracles of one Anthropic streaming call: the text
chunks of `stream.text_stream`, the cooperative-stop index, and the
final message's usage (`input_tokens, output_tokens`) and id. -/
structure AnthEnv where
  textChunks : List String
  stopAt : Option Nat
  finalUsage : Option (Nat × Nat)
  finalId : String

/-- `None` chunks cannot occur; the Anthropic chunk publish transposes
its arguments (`self._publish_stream_chunk(document_id, text,
thread_id)`), so the chunk text lands in the thread-id slot and the
`text` payload value is `thread_id` (a `None`, i.e. JSON null, in any
state `process` built). -/
def anth_loop (env : AnthEnv) (docId : String) (th : Option String) :
    Nat → List String → List PubEvent
  | _, [] => []
  | i, t :: rest =>
    if stoppedAt env.stopAt i then []
    else
      publish_stream_chunk docId t "Anthropic"
          (match th with | some s => .str s.data | none => .null) ::
        anth_loop env docId th (i + 1) rest

/-- `AnthropicProvider._stream_impl`: line 56 reads
`state['document_id']`, a key `process` never sets, so any state built
by `process` raises `KeyError('document_id')` before `START_STREAM`.
The branch where the key exists embeds the rest of the method (dead in
reachable runs): start event, the chunk loop with transposed arguments,
usage extraction from the final message (zero audio/cache/reasoning
tokens, `totalTokens = input + output`), and the end event. -/
def anthropic_stream_impl (env : AnthEnv) (st : PState) :
    List PubEvent × PyResult PState :=
  match st.document_id with
  | none => ([], .exn (.keyError "document_id") st)
  | some docId =>
    let th := st.thread_id
    let startPub := publish_stream_start docId (pyStr th) "Anthropic"
    let pubs := anth_loop env docId th 0 env.textChunks
    let st1 :=
      match env.finalUsage with
      | some (inp, out) =>
        { st with usage := some ⟨inp, 0, 0, out, 0, 0, inp + out⟩,
                  ai_vendor_request_id := some env.finalId }
      | none => st
    (startPub :: pubs ++ [publish_stream_end docId (pyStr th) "Anthropic"],
      .ok st1)

/-- `BaseLLMProvider._stream_tokens`: set `stream_active`, delegate to
the adapter; on an exception record `state['error']`, publish
`END_STREAM` and re-raise; in the `finally` block clear `stream_active`
and record `ai_request_finished_at` regardless of outcome. -/
def stream_tokens (impl : PState → List PubEvent × PyResult PState)
    (provider : String) (finishedAt : Int) (st : PState) :
    List PubEvent × PyResult PState :=
  let st0 := { st with stream_active := true }
  match impl st0 with
  | (pubs, .ok st') =>
    (pubs, .ok { st' with stream_active := false,
                          ai_request_finished_at := some finishedAt })
  | (pubs, .exn e st') =>
    let st'' := { st' with error := some e.toPyStr }
    (pubs ++ [publish_stream_end (pyStr st.workspace_id)
        (pyStr st.ai_chat_thread_id) provider],
      .exn e { st'' with stream_active := false,
                         ai_request_finished_at := some finishedAt })

/-- `BaseLLMProvider.process` around the workflow: initialise the state
with `ai_request_received_at` from the wall clock (`clock 0`), validate,
stream (recording `ai_request_finished_at` at `clock 1`), and account
(`_calculate_usage`/`_cleanup` touch none of the tracked fields).  An
exception escaping the workflow is caught in `process` and published on
the error subject with `str(e)`; the embedding reports it as `exn` so
theorems can inspect the state at raise time. -/
def process_run (impl : PState → List PubEvent × PyResult PState)
    (provider : String) (clock : Nat → Int) (req : Request) :
    List PubEvent × PyResult PState :=
  let st0 := init_state req provider (clock 0)
  match validate_request st0 with
  | .error e =>
    ([publish_error (pyStr st0.workspace_id) (pyStr st0.ai_chat_thread_id)
        e.toPyStr none none], .exn e st0)
  | .ok st1 =>
    match stream_tokens impl provider (clock 1) st1 with
    | (pubs, .ok st2) => (pubs, .ok st2)
    | (pubs, .exn e st2) =>
      (pubs ++ [publish_error (pyStr st2.workspace_id)
          (pyStr st2.ai_chat_thread_id) e.toPyStr none none],
        .exn e st2)

/-- A full OpenAI request run. -/
def process_openai (fetch : Option (Str → Str → Attachments.FetchResult))
    (env : OAIEnv) (clock : Nat → Int) (req : Request) :
    List PubEvent × PyResult PState :=
  process_run (openai_stream_impl fetch env) "OpenAI" clock req

/-- A full Anthropic request run. -/
def process_anthropic (env : AnthEnv) (clock : Nat → Int) (req : Request) :
    List PubEvent × PyResult PState :=
  process_run (anthropic_stream_impl env) "Anthropic" clock req

end Lixpi.Provider

namespace Lixpi.Registry

open Lixpi

/-- Which adapter class a registry entry instantiates. -/
inductive ProviderKind where
  | openAI
  | anthropic
deriving DecidableEq

/-- A provider instance as far as the registry is concerned. -/
structure RegProvider where
  instanceKey : String
  kind : ProviderKind
deriving DecidableEq

/-- The API keys the adapter constructors require
(`settings.OPENAI_API_KEY` / `settings.ANTHROPIC_API_KEY`; a falsy
value makes the constructor raise). -/
structure ApiConfig where
  openaiApiKey : Option String
  anthropicApiKey : Option String

/-- The registry's `self.instances` dict (`instanceKey → Provider`),
embedded as an ordered association list with unique keys. -/
structure RegState where
  instances : List (String × RegProvider)
deriving DecidableEq

/-- Python `self.instances.get(key)` / `key in self.instances`. -/
def lookupInstance (r : RegState) (key : String) : Option RegProvider :=
  (r.instances.find? (fun p => p.1 == key)).map (fun p => p.2)

/-- `ProviderRegistry._get_or_create_instance`: an existing instance is
returned as-is; otherwise `'OpenAI'`/`'Anthropic'` instantiate the
matching adapter (whose constructor validates the API key) and store
it; any other name raises `ValueError` before the registry is touched.
Returns the post-call registry together with the outcome. -/
def get_or_create_instance (cfg : ApiConfig) (r : RegState)
    (instanceKey providerName : String) :
    RegState × Except PyErr RegProvider :=
  match lookupInstance r instanceKey with
  | some p => (r, .ok p)
  | none =>
    if providerName = "OpenAI" then
      if ¬ truthyStr cfg.openaiApiKey then
        (r, .error (.valueError
          "OPENAI_API_KEY environment variable is required"))
      else
        let p : RegProvider := ⟨instanceKey, .openAI⟩
        (⟨r.instances ++ [(instanceKey, p)]⟩, .ok p)
    else if providerName = "Anthropic" then
      if ¬ truthyStr cfg.anthropicApiKey then
        (r, .error (.valueError
          "ANTHROPIC_API_KEY environment variable is required"))
      else
        let p : RegProvider := ⟨instanceKey, .anthropic⟩
        (⟨r.instances ++ [(instanceKey, p)]⟩, .ok p)
    else
      (r, .error (.valueError ("Unsupported provider: " ++ providerName)))

/-- `ProviderRegistry._remove_instance`: `del` the binding when present
(dict keys are unique, so removing every binding of the key equals
`del`), otherwise do nothing. -/
def remove_instance (r : RegState) (instanceKey : String) : RegState :=
  ⟨r.instances.filter (fun p => p.1 ≠ instanceKey)⟩

end Lixpi.Registry

namespace Lixpi.Nats

open Lixpi

/-- The `match_filter` closure inside `NatsService.get_subscriptions`:
no `*` means exact equality; a single `*` means prefix+suffix match
(independent `startswith`/`endswith` checks); a second `*` after the
first makes the pattern match nothing. -/
def match_filter (value filter_pattern : Str) : Bool :=
  match filter_pattern.findIdx? (fun c => c = '*') with
  | none => value == filter_pattern
  | some idx =>
    if (filter_pattern.drop (idx + 1)).any (fun c => c = '*') then false
    else
      (filter_pattern.take idx).isPrefixOf value &&
        (filter_pattern.drop (idx + 1)).isSuffixOf value

/-- One declared subscription of the service config
(`{subject, type, queue?}`; handlers and payload encodings do not
affect the registry). -/
structure SubSpec where
  subject : String
  isReply : Bool
  queue : Option String

/-- The configuration fields of `NatsServiceConfig` the subscription
machinery reads. -/
structure NsConfig where
  subscriptions : List SubSpec

/-- A subscription installed on the broker connection by
`self.nc.subscribe(...)`. -/
structure BrokerSub where
  subject : String
  queue : Option String
deriving DecidableEq

/-- The `NatsService` fields the subscription machinery touches:
`_subscriptions` (the internal registry dict, subject → handle),
the broker-side installed subscriptions, `_subscriptions_initialized`,
and whether `self.nc` is a live connection. -/
structure NsState where
  subsRegistry : List (String × Nat)
  installed : List BrokerSub
  subsInitialized : Bool
  connected : Bool
deriving DecidableEq

/-- `NatsService.__init__`: empty `_subscriptions`, flag false, no
connection. -/
def initNsState : NsState := ⟨[], [], false, false⟩

/-- `NatsService.subscribe` / `NatsService.reply`: with no connection
they return `None` and change nothing; with a connection they install a
broker subscription and return it — NEITHER stores into
`_subscriptions`. -/
def installSub (st : NsState) (subject : String) (queue : Option String) :
    NsState :=
  if ¬ st.connected then st
  else { st with installed := st.installed ++ [⟨subject, queue⟩] }

/-- `NatsService._init_subscriptions`: a no-op without a connection or
when already initialised; otherwise installs every configured
subscription via `subscribe`/`reply` and sets the flag. -/
def init_subscriptions (cfg : NsConfig) (st : NsState) : NsState :=
  if ¬ st.connected ∨ st.subsInitialized then st
  else
    let st' := cfg.subscriptions.foldl
      (fun s l => installSub s l.subject l.queue) st
    { st' with subsInitialized := true }

/-- The subscriptions `unsubscribe_all` would cancel: the entries of
`_subscriptions` (none when disconnected, where it returns early). -/
def unsubscribe_all_cancelled (st : NsState) : List (String × Nat) :=
  if ¬ st.connected then [] else st.subsRegistry

/-- `NatsService.get_subscriptions`: empty when disconnected; otherwise
the `_subscriptions` entries whose subject passes one of the filters
(an empty filter list passes everything). -/
def get_subscriptions (st : NsState) (filters : List Str) :
    List (String × Nat) :=
  if ¬ st.connected then []
  else st.subsRegistry.filter
    (fun p => filters.isEmpty || filters.any (fun f => match_filter p.1.data f))

/-- The operations that drive the subscription machinery: connection
attempts, the close/reconnect callbacks, direct `subscribe`/`reply`
calls, `_init_subscriptions` and `unsubscribe_all`. -/
inductive NsOp where
  | connectOk
  | connectFail
  | closeEvent
  | reconnectedEvent
  | subscribeOp (subject : String) (queue : Option String)
  | replyOp (subject : String) (queue : Option String)
  | initSubsOp
  | unsubscribeAllOp

/-- One step of the `NatsService` machine: `connect` early-returns when
already connected, otherwise establishes the connection and runs
`_init_subscriptions`; a failed connect only schedules a retry; the
closed callback resets the initialised flag (broker subscriptions die
with the connection); the reconnected callback re-runs
`_init_subscriptions` when needed; `unsubscribe_all` cancels the
registered subscriptions and clears the dict. -/
def step (cfg : NsConfig) (st : NsState) : NsOp → NsState
  | .connectOk =>
    if st.connected then st
    else init_subscriptions cfg { st with connected := true }
  | .connectFail => st
  | .closeEvent =>
    { st with connected := false, subsInitialized := false, installed := [] }
  | .reconnectedEvent =>
    if ¬ st.subsInitialized then init_subscriptions cfg st else st
  | .subscribeOp s q => installSub st s q
  | .replyOp s q => installSub st s q
  | .initSubsOp => init_subscriptions cfg st
  | .unsubscribeAllOp =>
    if st.connected then { st with subsRegistry := [] } else st

/-- Run a sequence of operations from the freshly constructed service. -/
def run (cfg : NsConfig) (ops : List NsOp) : NsState :=
  ops.foldl (step cfg) initNsState

end Lixpi.Nats

namespace Lixpi

/-- The exception of a run outcome, if any. -/
def resultErr {α : Type} : PyResult α → Option PyErr
  | .ok _ => none
  | .exn e _ => some e

/-- The final (or raise-time) state of a run outcome. -/
def stateOf {α : Type} : PyResult α → α
  | .ok a => a
  | .exn _ a => a

end Lixpi

namespace Lixpi.Provider

/-- Is this publish a receive-subject event with status `ERROR`? -/
def isRecvErrorStatus : PubEvent → Bool
  | .recv _ _ c =>
    match c.status with
    | .errorStatus => true
    | _ => false
  | .errSubj _ _ => false

/-- Is this publish a receive-subject event (as opposed to an
error-subject one)? -/
def isRecvEvent : PubEvent → Bool
  | .recv _ _ _ => true
  | .errSubj _ _ => false

/-- Is this publish a receive-subject `START_STREAM`? -/
def isRecvStart : PubEvent → Bool
  | .recv _ _ c =>
    match c.status with
    | .startStream => true
    | _ => false
  | .errSubj _ _ => false

end Lixpi.Provider

namespace Lixpi.Claims

open Lixpi Lixpi.Attachments Lixpi.Provider

/-- A single-message content list with one `input_text` block (the shape
of an ordinary user message after upload normalisation). -/
def c3_input : JVal :=
  .arr [.obj [("type", jstr "input_text"), ("text", jstr "hi")]]

/-- What one Anthropic conversion of `c3_input` produces. -/
def c3_converted : JVal :=
  .arr [.obj [("type", jstr "text"), ("text", jstr "hi")]]

/-- A minimal valid request (`workspaceId "ws1"`, thread `"th1"`, one
plain user message). -/
def c_request (modelVersion : String) : Request :=
  ⟨some "ws1", some "th1", some modelVersion,
    [.obj [("role", jstr "user"), ("content", jstr "hi")]], none⟩

/-- An Anthropic vendor oracle: one text chunk, final usage `(5, 3)`. -/
def c1_env : AnthEnv := ⟨["Hello"], none, some (5, 3), "m1"⟩

/-- An OpenAI vendor oracle whose stream consists of a single
`response.failed` event carrying the structured error of scenario S4. -/
def c2_env : OAIEnv :=
  ⟨[.failed "r1" (some ⟨some "quota", some "insufficient_quota",
      some "billing_error"⟩)], none, fun _ => none⟩

/-- An OpenAI vendor oracle for the happy path of scenario S1: three
text deltas and a completion with usage `(2, 3)`. -/
def c6_env : OAIEnv :=
  ⟨[.outputTextDelta "h", .outputTextDelta "e", .outputTextDelta "llo",
    .completed "r2" [] (some ⟨2, 3, none, none, none, none⟩)],
    none, fun _ => none⟩

end Lixpi.Claims

namespace Lixpi.Attachments

open Lixpi

/-- Is this block a `dict` whose `type` is `'input_image'` (the only
block shape `resolve_image_urls` rewrites)? -/
def isInputImage : JVal → Bool
  | .obj fields => isStrEq (jget fields "type") "input_image"
  | _ => false

end Lixpi.Attachments

namespace Lixpi

open Lixpi.Attachments Lixpi.Provider Lixpi.UsageRep Lixpi.Claims

/-- Generic list fact: a `filterMap` whose function fixes every element
of the list leaves the list unchanged. -/
theorem filterMap_of_fix {α : Type} (f : α → Option α) :
    ∀ l : List α, (∀ x ∈ l, f x = some x) → l.filterMap f = l := by
  intro l h
  induction l with
  | nil => rfl
  | cons a t ih =>
    rw [List.filterMap_cons, h a (by simp)]
    rw [ih (fun x hx => h x (by simp [hx]))]

/-- Every block produced by the OpenAI validator is a fixed point of the
validator. -/
theorem validate_block_openai_fix (b out : JVal)
    (h : validate_block_openai b = some out) :
    validate_block_openai out = some out := by
  cases b with
  | obj fields =>
    have h' : (if isStrEq (jget fields "type") "input_text" then
        some (JVal.obj [("type", jstr "input_text"),
          ("text", jgetD fields "text" (jstr ""))])
      else if isStrEq (jget fields "type") "input_image" then
        some (JVal.obj [("type", jstr "input_image"),
          ("image_url", jgetD fields "image_url" (jstr "")),
          ("detail", jgetD fields "detail" (jstr "auto"))])
      else if isStrEq (jget fields "type") "file" then
        some (JVal.obj fields)
      else none) = some out := h
    clear h
    split_ifs at h' with h1 h2 h3
    · injection h' with h''; subst h''; rfl
    · injection h' with h''; subst h''; rfl
    · injection h' with h''; subst h''
      show (if isStrEq (jget fields "type") "input_text" then
          some (JVal.obj [("type", jstr "input_text"),
            ("text", jgetD fields "text" (jstr ""))])
        else if isStrEq (jget fields "type") "input_image" then
          some (JVal.obj [("type", jstr "input_image"),
            ("image_url", jgetD fields "image_url" (jstr "")),
            ("detail", jgetD fields "detail" (jstr "auto"))])
        else if isStrEq (jget fields "type") "file" then
          some (JVal.obj fields)
        else none) = some (JVal.obj fields)
      rw [if_neg h1, if_neg h2, if_pos h3]
  | null => cases h
  | bool b => cases h
  | num n => cases h
  | str s => cases h
  | arr xs => cases h

/-- `convert_content_for_openai` is idempotent. -/
theorem convert_content_for_openai_idem (content : JVal) :
    convert_content_for_openai (convert_content_for_openai content) =
      convert_content_for_openai content := by
  cases content with
  | arr blocks =>
    have key : convert_content_for_openai (JVal.arr blocks) =
        if (blocks.filterMap validate_block_openai).isEmpty then jstr ""
        else .arr (blocks.filterMap validate_block_openai) := rfl
    rw [key]
    by_cases he : (blocks.filterMap validate_block_openai).isEmpty
    · rw [if_pos he]; rfl
    · rw [if_neg he]
      have hfix : (blocks.filterMap validate_block_openai).filterMap
          validate_block_openai = blocks.filterMap validate_block_openai := by
        refine filterMap_of_fix _ _ (fun x hx => ?_)
        rcases List.mem_filterMap.mp hx with ⟨b, _, hb⟩
        exact validate_block_openai_fix b x hb
      have key2 : convert_content_for_openai
          (JVal.arr (blocks.filterMap validate_block_openai)) =
          if ((blocks.filterMap validate_block_openai).filterMap
            validate_block_openai).isEmpty then jstr ""
          else .arr ((blocks.filterMap validate_block_openai).filterMap
            validate_block_openai) := rfl
      rw [key2, hfix, if_neg he]
  | str s => rfl
  | null => rfl
  | bool b => rfl
  | num n => rfl
  | obj f => rfl

/-- Claim C3 counterexample: one `input_text` block converts for the
ANTHROPIC target to a `text` block, but a second ANTHROPIC conversion
drops the `text` block as unknown and collapses to the empty string, so
applying `convert_attachments_for_provider` twice differs from applying
it once. -/
theorem claim_C3_counterexample :
    convert_attachments_for_provider c3_input .anthropic = .ok c3_converted ∧
    convert_attachments_for_provider c3_converted .anthropic =
      .ok (jstr "") ∧
    jstr "" ≠ c3_converted := by
  refine ⟨rfl, rfl, fun h => ?_⟩
  simp [jstr, c3_converted] at h

/-- Claim C3 (amended): attachment conversion is idempotent for the
OPENAI target on every content value, and for the ANTHROPIC target on
string content; for ANTHROPIC list content a second application is not
the identity (see the counterexample). -/
theorem claim_C3_conversion_idem :
    (∀ (content out : JVal),
      convert_attachments_for_provider content .openai = .ok out →
      convert_attachments_for_provider out .openai = .ok out) ∧
    (∀ (s : Str) (out : JVal),
      convert_attachments_for_provider (.str s) .anthropic = .ok out →
      convert_attachments_for_provider out .anthropic = .ok out) := by
  constructor
  · intro content out h
    injection h with h'
    subst h'
    show Except.ok (convert_content_for_openai
      (convert_content_for_openai content)) = _
    rw [convert_content_for_openai_idem]
  · intro s out h
    injection h with h'
    subst h'
    rfl

/-- Claim C3 witness for the amended theorem: idempotency applied to the
concrete single-block content for OPENAI and to a string for
ANTHROPIC. -/
theorem claim_C3_conversion_idem_witness :
    convert_attachments_for_provider
      (convert_content_for_openai c3_input) .openai =
      .ok (convert_content_for_openai c3_input) ∧
    convert_attachments_for_provider (jstr "hi") .anthropic =
      .ok (jstr "hi") :=
  ⟨claim_C3_conversion_idem.1 c3_input (convert_content_for_openai c3_input)
      rfl,
    claim_C3_conversion_idem.2 (lit "hi") (jstr "hi") rfl⟩

/-- Claim C5: `report_tokens_usage` computes
`purchasedFor = price / pricePer * tokens`, each `soldToClientFor` is
the corresponding `purchasedFor` times the resale margin, totals are
prompt plus completion, and the S6 instance
(`promptTokens=1000, completionTokens=500, pricePer=10^6,
promptPrice=3, completionPrice=15, resaleMargin=1.5`) yields exactly
`0.003`, `0.0075` and a total `soldToClientFor` of `0.015750`. -/
theorem claim_C5_pricing :
    (∀ (pricing : TextPricing) (pt ct : ℕ),
      (report_tokens_usage pricing pt ct).promptPurchasedFor =
        pricing.promptPrice / pricing.pricePer * pt ∧
      (report_tokens_usage pricing pt ct).completionPurchasedFor =
        pricing.completionPrice / pricing.pricePer * ct ∧
      (report_tokens_usage pricing pt ct).promptSoldToClientFor =
        (report_tokens_usage pricing pt ct).promptPurchasedFor *
          pricing.resaleMargin ∧
      (report_tokens_usage pricing pt ct).completionSoldToClientFor =
        (report_tokens_usage pricing pt ct).completionPurchasedFor *
          pricing.resaleMargin ∧
      (report_tokens_usage pricing pt ct).totalPurchasedFor =
        (report_tokens_usage pricing pt ct).promptPurchasedFor +
          (report_tokens_usage pricing pt ct).completionPurchasedFor ∧
      (report_tokens_usage pricing pt ct).totalSoldToClientFor =
        (report_tokens_usage pricing pt ct).promptSoldToClientFor +
          (report_tokens_usage pricing pt ct).completionSoldToClientFor) ∧
    (report_tokens_usage ⟨3/2, 1000000, 3, 15⟩ 1000 500).promptPurchasedFor
      = 0.003 ∧
    (report_tokens_usage ⟨3/2, 1000000, 3, 15⟩ 1000
      500).completionPurchasedFor = 0.0075 ∧
    (report_tokens_usage ⟨3/2, 1000000, 3, 15⟩ 1000
      500).totalSoldToClientFor = 0.015750 := by
  refine ⟨fun pricing pt ct => ⟨rfl, rfl, ?_, ?_, rfl, rfl⟩, ?_, ?_, ?_⟩
  · show pricing.promptPrice * pricing.resaleMargin / pricing.pricePer * pt
      = pricing.promptPrice / pricing.pricePer * pt * pricing.resaleMargin
    ring
  · show pricing.completionPrice * pricing.resaleMargin / pricing.pricePer
      * ct = pricing.completionPrice / pricing.pricePer * ct *
        pricing.resaleMargin
    ring
  · norm_num [report_tokens_usage]
  · norm_num [report_tokens_usage]
  · norm_num [report_tokens_usage]

/-- Claim C1 (evaluation at the failing input): any valid Anthropic
request crashes with `KeyError('document_id')` before `START_STREAM`
(the adapter reads `state['document_id']`, a key `process` never sets),
so the receive subject sees an `END_STREAM` (from the error path of
`_stream_tokens`) with NO preceding `START_STREAM`, violating the
claimed ordering. -/
theorem claim_C1_anthropic_no_start :
    (process_anthropic c1_env (fun i => (i : Int))
        (c_request "claude-3")).1 =
      [publish_stream_end "ws1" "th1" "Anthropic",
        publish_error "ws1" "th1" "'document_id'" none none] ∧
    ((process_anthropic c1_env (fun i => (i : Int))
        (c_request "claude-3")).1.filter isRecvStart = []) ∧
    resultErr (process_anthropic c1_env (fun i => (i : Int))
        (c_request "claude-3")).2 = some (.keyError "document_id") :=
  ⟨rfl, rfl, rfl⟩

/-- Claim C2 counterexample: on the S4 vendor failure
(`response.failed` with message/code/type), the adapter publishes NO
`ERROR`-status event on the receive subject — the receive subject gets
only `START_STREAM` and `END_STREAM`; the structured error goes to the
error subject only. -/
theorem claim_C2_counterexample :
    (process_openai none c2_env (fun i => (i : Int))
        (c_request "gpt-x")).1.filter isRecvErrorStatus = [] ∧
    (process_openai none c2_env (fun i => (i : Int))
        (c_request "gpt-x")).1 =
      [publish_stream_start "ws1" "th1" "OpenAI",
        publish_error "ws1" "th1" "quota" (some "insufficient_quota")
          (some "billing_error"),
        publish_stream_end "ws1" "th1" "OpenAI",
        publish_error "ws1" "th1" "OpenAI Responses API error: quota"
          none none] :=
  ⟨rfl, rfl⟩

end Lixpi

namespace Lixpi.C2

open Lixpi Lixpi.Provider Lixpi.Claims

/-- Claim C2 (amended): on a `response.failed` event carrying a
structured `{message, code, type}` error, the OpenAI adapter publishes
the structured payload `{error, errorCode, errorType, instanceKey}` on
`ai.interaction.chat.error.<workspaceId>:<threadId>` and raises a
`RuntimeError` to the workflow; the receive subject gets only
`START_STREAM` and `END_STREAM` (no `ERROR`-status event), and the
workflow's catch-all publishes a second, wrapped payload on the error
subject. -/
theorem claim_C2_error_routing (ws th mv id msg code ty : String)
    (messages : List JVal)
    (fetch : Option (Str → Str → Attachments.FetchResult))
    (upload : String → Option (String × String)) (clock : Nat → Int)
    (hws : ws ≠ "") (hth : th ≠ "") (hmv : mv ≠ "")
    (hmsg : msg ≠ "") (hcode : code ≠ "") (hty : ty ≠ "")
    (hm : messages ≠ [])
    (hasm : assemble_openai fetch messages = .ok ()) :
    (process_openai fetch
        ⟨[.failed id (some ⟨some msg, some code, some ty⟩)], none, upload⟩
        clock ⟨some ws, some th, some mv, messages, none⟩).1 =
      [publish_stream_start ws th "OpenAI",
        publish_error ws th msg (some code) (some ty),
        publish_stream_end ws th "OpenAI",
        publish_error ws th ("OpenAI Responses API error: " ++ msg)
          none none] ∧
    resultErr (process_openai fetch
        ⟨[.failed id (some ⟨some msg, some code, some ty⟩)], none, upload⟩
        clock ⟨some ws, some th, some mv, messages, none⟩).2 =
      some (.runtimeError ("OpenAI Responses API error: " ++ msg)) := by
  have hm' : messages.isEmpty = false := by
    cases messages with
    | nil => exact absurd rfl hm
    | cons a t => rfl
  constructor <;>
    simp [process_openai, process_run, init_state, validate_request,
      truthyStr, hws, hth, hmv, hm', stream_tokens, openai_stream_impl,
      hasm, oai_loop, stoppedAt, resultErr, publish_error, truthyOpt,
      pyStr, hmsg, hcode, hty, PyErr.toPyStr]

/-- Claim C2 witness: the amended routing applied at the S4 scenario
values. -/
theorem claim_C2_error_routing_witness :
    (process_openai none c2_env (fun i => (i : Int))
        (c_request "gpt-x")).1 =
      [publish_stream_start "ws1" "th1" "OpenAI",
        publish_error "ws1" "th1" "quota" (some "insufficient_quota")
          (some "billing_error"),
        publish_stream_end "ws1" "th1" "OpenAI",
        publish_error "ws1" "th1" "OpenAI Responses API error: quota"
          none none] ∧
    resultErr (process_openai none c2_env (fun i => (i : Int))
        (c_request "gpt-x")).2 =
      some (.runtimeError "OpenAI Responses API error: quota") :=
  claim_C2_error_routing "ws1" "th1" "gpt-x" "r1" "quota"
    "insufficient_quota" "billing_error"
    [.obj [("role", jstr "user"), ("content", jstr "hi")]]
    none (fun _ => none) (fun i => (i : Int))
    (by decide) (by decide) (by decide) (by decide) (by decide) (by decide)
    (by simp) rfl

end Lixpi.C2

namespace Lixpi.Registry

/-- Claim C8: `getOrCreate` returns the existing provider unchanged when
the instance key is present; an absent key with a provider name that is
neither `'OpenAI'` nor `'Anthropic'` fails with a `ValueError` and
leaves the registry untouched; and `remove` is idempotent and a no-op
on absent keys. -/
theorem claim_C8_registry (cfg : ApiConfig) (r : RegState)
    (key name : String) :
    (∀ p, lookupInstance r key = some p →
      get_or_create_instance cfg r key name = (r, .ok p)) ∧
    (lookupInstance r key = none → name ≠ "OpenAI" → name ≠ "Anthropic" →
      get_or_create_instance cfg r key name =
        (r, .error (.valueError ("Unsupported provider: " ++ name)))) ∧
    (lookupInstance r key = none → remove_instance r key = r) ∧
    remove_instance (remove_instance r key) key = remove_instance r key := by
  refine ⟨fun p hp => ?_, fun habs hn1 hn2 => ?_, fun habs => ?_, ?_⟩
  · simp [get_or_create_instance, hp]
  · simp [get_or_create_instance, habs, hn1, hn2]
  · have hfind : r.instances.find? (fun p => p.1 == key) = none := by
      simp only [lookupInstance] at habs
      exact Option.map_eq_none'.mp habs
    have hall := List.find?_eq_none.mp hfind
    show RegState.mk (r.instances.filter (fun p => p.1 ≠ key)) = r
    have hfil : r.instances.filter (fun p => p.1 ≠ key) = r.instances := by
      refine List.filter_eq_self.mpr (fun p hp => ?_)
      have hne : p.1 ≠ key := by simpa using hall p hp
      simp [hne]
    rw [hfil]
  · have hidem : (r.instances.filter (fun p => p.1 ≠ key)).filter
        (fun p => p.1 ≠ key) = r.instances.filter (fun p => p.1 ≠ key) := by
      rw [List.filter_filter]
      exact List.filter_congr (fun a _ => Bool.and_self _)
    show RegState.mk ((r.instances.filter (fun p => p.1 ≠ key)).filter
      (fun p => p.1 ≠ key)) = RegState.mk (r.instances.filter
        (fun p => p.1 ≠ key))
    rw [hidem]

/-- Claim C8 witness: the registry facts applied to a one-entry registry
with a present key, an unknown provider name at an absent key, and a
removal of an absent key. -/
theorem claim_C8_registry_witness :
    (get_or_create_instance ⟨some "sk1", some "sk2"⟩
        ⟨[("a:b", ⟨"a:b", .openAI⟩)]⟩ "a:b" "OpenAI" =
      (⟨[("a:b", ⟨"a:b", .openAI⟩)]⟩, .ok ⟨"a:b", .openAI⟩)) ∧
    (get_or_create_instance ⟨some "sk1", some "sk2"⟩
        ⟨[("a:b", ⟨"a:b", .openAI⟩)]⟩ "x:y" "Gemini" =
      (⟨[("a:b", ⟨"a:b", .openAI⟩)]⟩,
        .error (.valueError "Unsupported provider: Gemini"))) ∧
    remove_instance (⟨[("a:b", ⟨"a:b", .openAI⟩)]⟩ : RegState) "x:y" =
      ⟨[("a:b", ⟨"a:b", .openAI⟩)]⟩ :=
  ⟨(claim_C8_registry ⟨some "sk1", some "sk2"⟩
      ⟨[("a:b", ⟨"a:b", .openAI⟩)]⟩ "a:b" "OpenAI").1 ⟨"a:b", .openAI⟩ rfl,
    (claim_C8_registry ⟨some "sk1", some "sk2"⟩
      ⟨[("a:b", ⟨"a:b", .openAI⟩)]⟩ "x:y" "Gemini").2.1 rfl
      (by decide) (by decide),
    (claim_C8_registry ⟨some "sk1", some "sk2"⟩
      ⟨[("a:b", ⟨"a:b", .openAI⟩)]⟩ "x:y" "Gemini").2.2.1 rfl⟩

end Lixpi.Registry

namespace Lixpi.Nats

open Lixpi

/-- Position of the first `*` in a star-free-prefix decomposition, with
the accumulator of `List.findIdx?` made explicit. -/
theorem findIdx?_star_aux (suf : Str) :
    ∀ (pre : Str) (i : Nat), '*' ∉ pre →
      List.findIdx? (fun c => c = '*') (pre ++ '*' :: suf) i =
        some (i + pre.length) := by
  intro pre
  induction pre with
  | nil => intro i _; simp [List.findIdx?_cons]
  | cons a t ih =>
    intro i h
    have ha : ¬ a = '*' := fun e => h (by simp [e])
    rw [List.cons_append, List.findIdx?_cons, if_neg (by simpa using ha),
      ih (i + 1) (fun hm => h (List.mem_cons_of_mem _ hm))]
    congr 1
    simp [List.length_cons]
    omega

/-- Claim C9: the subscription-enumeration wildcard match — a pattern
with exactly one `*` matches iff the subject starts with the text
before the `*` and ends with the text after it; a star-free pattern
matches only by equality; a pattern with two (or more) `*` never
matches; and the two concrete examples of the spec hold. -/
theorem claim_C9_match_filter :
    (∀ (v pre suf : Str), '*' ∉ pre → '*' ∉ suf →
      match_filter v (pre ++ '*' :: suf) =
        (pre.isPrefixOf v && suf.isSuffixOf v)) ∧
    (∀ (v pat : Str), '*' ∉ pat → match_filter v pat = (v == pat)) ∧
    (∀ (v pre mid suf : Str), '*' ∉ pre →
      match_filter v (pre ++ '*' :: (mid ++ '*' :: suf)) = false) ∧
    match_filter (lit "a.b.c") (lit "a.*.c") = true ∧
    match_filter (lit "a.b.d") (lit "a.*.c") = false := by
  refine ⟨fun v pre suf hpre hsuf => ?_, fun v pat hpat => ?_,
    fun v pre mid suf hpre => ?_, by decide, by decide⟩
  · have hidx := findIdx?_star_aux suf pre 0 hpre
    rw [Nat.zero_add] at hidx
    have hdrop : (pre ++ '*' :: suf).drop (pre.length + 1) = suf := by
      rw [show pre.length + 1 = pre.length + 1 from rfl, ← List.drop_drop,
        List.drop_left]
      rfl
    have htake : (pre ++ '*' :: suf).take pre.length = pre :=
      List.take_left pre ('*' :: suf)
    unfold match_filter
    rw [hidx]
    simp only [hdrop, htake]
    rw [if_neg (by simpa using hsuf)]
  · have hnone : List.findIdx? (fun c => c = '*') pat = none :=
      List.findIdx?_eq_none_iff.mpr (fun x hx => by
        have hne : x ≠ '*' := fun e => hpat (e ▸ hx)
        simpa using hne)
    unfold match_filter
    rw [hnone]
  · have hidx := findIdx?_star_aux (mid ++ '*' :: suf) pre 0 hpre
    rw [Nat.zero_add] at hidx
    have hdrop : (pre ++ '*' :: (mid ++ '*' :: suf)).drop (pre.length + 1) =
        mid ++ '*' :: suf := by
      rw [← List.drop_drop, List.drop_left]
      rfl
    unfold match_filter
    rw [hidx]
    simp only [hdrop]
    rw [if_pos (by rw [List.any_eq_true]; exact ⟨'*', by simp, by simp⟩)]

/-- Claim C9 witness: the wildcard facts applied at the spec's concrete
pattern `a.*.c` (decomposed around its single star) and at a star-free
pattern. -/
theorem claim_C9_match_filter_witness :
    match_filter (lit "a.b.c") (lit "a." ++ '*' :: lit ".c") =
      ((lit "a.").isPrefixOf (lit "a.b.c") &&
        (lit ".c").isSuffixOf (lit "a.b.c")) ∧
    match_filter (lit "a.b.c") (lit "a.b.c") =
      (lit "a.b.c" == lit "a.b.c") ∧
    match_filter (lit "a.b.c") (lit "a." ++ '*' :: (lit "b." ++ '*' ::
      lit "c")) = false :=
  ⟨claim_C9_match_filter.1 (lit "a.b.c") (lit "a.") (lit ".c")
      (by decide) (by decide),
    claim_C9_match_filter.2.1 (lit "a.b.c") (lit "a.b.c") (by decide),
    claim_C9_match_filter.2.2.1 (lit "a.b.c") (lit "a.") (lit "b.")
      (lit "c") (by decide)⟩

/-- `subscribe`/`reply` never touch the `_subscriptions` dict. -/
theorem installSub_subsRegistry (st : NsState) (s : String)
    (q : Option String) : (installSub st s q).subsRegistry =
      st.subsRegistry := by
  unfold installSub
  split <;> rfl

/-- Installing the configured subscriptions never touches the
`_subscriptions` dict. -/
theorem foldl_installSub_subsRegistry (subs : List SubSpec) :
    ∀ st : NsState, (subs.foldl (fun s l => installSub s l.subject l.queue)
      st).subsRegistry = st.subsRegistry := by
  induction subs with
  | nil => intro st; rfl
  | cons a t ih =>
    intro st
    rw [List.foldl_cons, ih, installSub_subsRegistry]

/-- `_init_subscriptions` never touches the `_subscriptions` dict. -/
theorem init_subscriptions_subsRegistry (cfg : NsConfig) (st : NsState) :
    (init_subscriptions cfg st).subsRegistry = st.subsRegistry := by
  unfold init_subscriptions
  split
  · rfl
  · rw [show ({ cfg.subscriptions.foldl
      (fun s l => installSub s l.subject l.queue) st with
        subsInitialized := true } : NsState).subsRegistry =
      (cfg.subscriptions.foldl (fun s l => installSub s l.subject l.queue)
        st).subsRegistry from rfl, foldl_installSub_subsRegistry]

/-- No operation of the service inserts into `_subscriptions`. -/
theorem step_subsRegistry_empty (cfg : NsConfig) (st : NsState)
    (op : NsOp) (h : st.subsRegistry = []) :
    (step cfg st op).subsRegistry = [] := by
  cases op with
  | connectOk =>
    show (if st.connected = true then st
      else init_subscriptions cfg { st with connected := true }).subsRegistry
        = []
    split
    · exact h
    · rw [init_subscriptions_subsRegistry]; exact h
  | connectFail => exact h
  | closeEvent => exact h
  | reconnectedEvent =>
    show (if ¬ st.subsInitialized = true then init_subscriptions cfg st
      else st).subsRegistry = []
    split
    · rw [init_subscriptions_subsRegistry]; exact h
    · exact h
  | subscribeOp s q => rw [show step cfg st (.subscribeOp s q) =
      installSub st s q from rfl, installSub_subsRegistry]; exact h
  | replyOp s q => rw [show step cfg st (.replyOp s q) =
      installSub st s q from rfl, installSub_subsRegistry]; exact h
  | initSubsOp => rw [show step cfg st .initSubsOp =
      init_subscriptions cfg st from rfl,
      init_subscriptions_subsRegistry]; exact h
  | unsubscribeAllOp =>
    show (if st.connected = true
      then { st with subsRegistry := ([] : List (String × Nat)) }
      else st).subsRegistry = []
    split
    · rfl
    · exact h

/-- The `_subscriptions` dict stays empty along every run. -/
theorem run_subsRegistry_empty (cfg : NsConfig) (ops : List NsOp) :
    (run cfg ops).subsRegistry = [] := by
  suffices hgen : ∀ st : NsState, st.subsRegistry = [] →
      (ops.foldl (step cfg) st).subsRegistry = [] from
    hgen initNsState rfl
  induction ops with
  | nil => intro st h; exact h
  | cons a t ih =>
    intro st h
    rw [List.foldl_cons]
    exact ih _ (step_subsRegistry_empty cfg st a h)

/-- When connected, `installSub` appends to the broker-side installs. -/
theorem foldl_installSub_installed (subs : List SubSpec) :
    ∀ st : NsState, st.connected = true →
      (subs.foldl (fun s l => installSub s l.subject l.queue) st).installed =
        st.installed ++ subs.map (fun l => ⟨l.subject, l.queue⟩) := by
  induction subs with
  | nil => intro st _; simp
  | cons a t ih =>
    intro st hc
    rw [List.foldl_cons]
    have hc' : (installSub st a.subject a.queue).connected = true := by
      unfold installSub
      split <;> exact hc
    rw [ih _ hc']
    unfold installSub
    rw [if_neg (by simp [hc])]
    simp

/-- Claim C10: the transport's internal subscription registry is never
populated — after any sequence of operations (including installing the
configured subscriptions on a live connection) `_subscriptions` is
empty, `get_subscriptions` returns the empty map for every filter,
`unsubscribe_all` finds nothing to cancel, and yet a successful connect
does install every configured subscription on the broker connection. -/
theorem claim_C10_registry_never_populated :
    ∀ (cfg : NsConfig) (ops : List NsOp) (filters : List Str),
      (run cfg ops).subsRegistry = [] ∧
      get_subscriptions (run cfg ops) filters = [] ∧
      unsubscribe_all_cancelled (run cfg ops) = [] ∧
      (run cfg [.connectOk]).installed =
        cfg.subscriptions.map (fun l => ⟨l.subject, l.queue⟩) := by
  intro cfg ops filters
  have hempty := run_subsRegistry_empty cfg ops
  refine ⟨hempty, ?_, ?_, ?_⟩
  · unfold get_subscriptions
    split
    · rfl
    · rw [hempty]; rfl
  · unfold unsubscribe_all_cancelled
    split
    · rfl
    · exact run_subsRegistry_empty cfg ops
  · show (if initNsState.connected = true then initNsState
      else init_subscriptions cfg
        { initNsState with connected := true }).installed = _
    rw [if_neg (by simp [initNsState])]
    have hinit : init_subscriptions cfg { initNsState with connected := true }
        = { cfg.subscriptions.foldl
            (fun s l => installSub s l.subject l.queue)
            { initNsState with connected := true } with
              subsInitialized := true } := by
      unfold init_subscriptions
      rw [if_neg (by simp [initNsState])]
    rw [hinit]
    rw [show ({ cfg.subscriptions.foldl
        (fun s l => installSub s l.subject l.queue)
        { initNsState with connected := true } with
          subsInitialized := true } : NsState).installed =
      (cfg.subscriptions.foldl (fun s l => installSub s l.subject l.queue)
        { initNsState with connected := true }).installed from rfl]
    rw [foldl_installSub_installed _ _ rfl]
    rfl

end Lixpi.Nats

namespace Lixpi.Provider

open Lixpi

/-- Second component of the cons-and-recurse shape of the event loops. -/
theorem snd_match_cons (f : List PubEvent × PyResult PState) (c : PubEvent) :
    (match f with
      | (pubs, r) => ((c :: pubs : List PubEvent), r)).2 = f.2 := by
  rcases f with ⟨pubs, r⟩
  rfl

/-- Second component of the append-and-recurse shape of the event
loops. -/
theorem snd_match_append (f : List PubEvent × PyResult PState)
    (pre : List PubEvent) :
    (match f with
      | (pubs, r) => ((pre ++ pubs : List PubEvent), r)).2 = f.2 := by
  rcases f with ⟨pubs, r⟩
  rfl

/-- The OpenAI event loop never changes `ai_request_received_at` or
`ai_request_finished_at`, and it only ever stores a `usage` whose
`totalTokens` is `promptTokens + completionTokens`. -/
theorem oai_loop_preserves (env : OAIEnv) (ws th : String) :
    ∀ (evs : List OAIEvent) (i : Nat) (st : PState),
      (stateOf (oai_loop env ws th i evs st).2).ai_request_received_at =
        st.ai_request_received_at ∧
      (stateOf (oai_loop env ws th i evs st).2).ai_request_finished_at =
        st.ai_request_finished_at ∧
      ((∀ u, st.usage = some u →
          u.totalTokens = u.promptTokens + u.completionTokens) →
        ∀ u, (stateOf (oai_loop env ws th i evs st).2).usage = some u →
          u.totalTokens = u.promptTokens + u.completionTokens) := by
  intro evs
  induction evs with
  | nil => intro i st; exact ⟨rfl, rfl, fun h => h⟩
  | cons e rest ih =>
    intro i st
    by_cases hstop : stoppedAt env.stopAt i
    · simp [oai_loop, hstop, stateOf]
    · cases e with
      | outputTextDelta d =>
        by_cases hd : d ≠ ""
        · simp only [oai_loop, if_neg hstop, if_pos hd, snd_match_cons]
          exact ih (i + 1) st
        · simp only [oai_loop, if_neg hstop, if_neg hd]
          exact ih (i + 1) st
      | imgPartialEvent b idx =>
        by_cases hb : truthyStr b = true
        · cases hu : env.upload (b.getD "") with
          | some pr =>
            rcases pr with ⟨fid, url⟩
            simp only [oai_loop, if_neg hstop, hb, if_true, hu,
              snd_match_cons]
            exact ih (i + 1) st
          | none =>
            simp only [oai_loop, if_neg hstop, hb, if_true, hu]
            exact ih (i + 1) st
        · simp only [oai_loop, if_neg hstop, if_neg hb]
          exact ih (i + 1) st
      | completed id output usage? =>
        rcases himg : handle_image_gen env.upload ws th id "OpenAI" output
          with ⟨imgPubs, n⟩
        cases usage? with
        | some u =>
          by_cases hn : n > 0
          · simp only [oai_loop, if_neg hstop, himg, if_pos hn,
              snd_match_append]
            exact ⟨(ih (i + 1) _).1, (ih (i + 1) _).2.1,
              fun _hst => (ih (i + 1) _).2.2 (fun u' hu' => by
                injection hu' with h'
                subst h'
                rfl)⟩
          · simp only [oai_loop, if_neg hstop, himg, if_neg hn,
              snd_match_append]
            exact ⟨(ih (i + 1) _).1, (ih (i + 1) _).2.1,
              fun _hst => (ih (i + 1) _).2.2 (fun u' hu' => by
                injection hu' with h'
                subst h'
                rfl)⟩
        | none =>
          by_cases hn : n > 0
          · simp only [oai_loop, if_neg hstop, himg, if_pos hn,
              snd_match_append]
            exact ⟨(ih (i + 1) _).1, (ih (i + 1) _).2.1,
              fun hst => (ih (i + 1) _).2.2 hst⟩
          · simp only [oai_loop, if_neg hstop, himg, if_neg hn,
              snd_match_append]
            exact ⟨(ih (i + 1) _).1, (ih (i + 1) _).2.1,
              fun hst => (ih (i + 1) _).2.2 hst⟩
      | failed id errorObj? =>
        cases errorObj? with
        | none =>
          simp only [oai_loop, if_neg hstop]
          exact ih (i + 1) st
        | some eo =>
          simp only [oai_loop, if_neg hstop]
          exact ⟨rfl, rfl, fun hst => hst⟩
      | otherEvent t =>
        simp only [oai_loop, if_neg hstop]
        exact ih (i + 1) st

/-- `OpenAIProvider._stream_impl` preserves the received/finished
timestamps and only stores sum-consistent usage. -/
theorem openai_stream_impl_preserves
    (fetch : Option (Str → Str → Attachments.FetchResult)) (env : OAIEnv)
    (st : PState) :
    (stateOf (openai_stream_impl fetch env st).2).ai_request_received_at =
      st.ai_request_received_at ∧
    (stateOf (openai_stream_impl fetch env st).2).ai_request_finished_at =
      st.ai_request_finished_at ∧
    ((∀ u, st.usage = some u →
        u.totalTokens = u.promptTokens + u.completionTokens) →
      ∀ u, (stateOf (openai_stream_impl fetch env st).2).usage = some u →
        u.totalTokens = u.promptTokens + u.completionTokens) := by
  unfold openai_stream_impl
  cases hasm : assemble_openai fetch st.messages with
  | error e => exact ⟨rfl, rfl, fun h => h⟩
  | ok u =>
    rcases hr : oai_loop env (pyStr st.workspace_id)
        (pyStr st.ai_chat_thread_id) 0 env.events st with ⟨pubs, r⟩
    have hloop := oai_loop_preserves env (pyStr st.workspace_id)
      (pyStr st.ai_chat_thread_id) env.events 0 st
    rw [hr] at hloop
    simp only [hr]
    cases r with
    | ok st' => exact hloop
    | exn e st' =>
      by_cases herr : truthyStr st'.error = true
      · simp only [if_pos herr]
        exact hloop
      · simp only [if_neg herr]
        exact hloop

/-- `AnthropicProvider._stream_impl` preserves the received/finished
timestamps and only stores sum-consistent usage. -/
theorem anthropic_stream_impl_preserves (env : AnthEnv) (st : PState) :
    (stateOf (anthropic_stream_impl env st).2).ai_request_received_at =
      st.ai_request_received_at ∧
    (stateOf (anthropic_stream_impl env st).2).ai_request_finished_at =
      st.ai_request_finished_at ∧
    ((∀ u, st.usage = some u →
        u.totalTokens = u.promptTokens + u.completionTokens) →
      ∀ u, (stateOf (anthropic_stream_impl env st).2).usage = some u →
        u.totalTokens = u.promptTokens + u.completionTokens) := by
  unfold anthropic_stream_impl
  cases hdoc : st.document_id with
  | none => exact ⟨rfl, rfl, fun h => h⟩
  | some docId =>
    cases hfin : env.finalUsage with
    | none => exact ⟨rfl, rfl, fun h => h⟩
    | some pr =>
      rcases pr with ⟨inp, out⟩
      refine ⟨rfl, rfl, fun _hst u hu => ?_⟩
      injection hu with h'
      subst h'
      rfl

/-- `_stream_tokens` records `ai_request_finished_at` in its `finally`
block, leaves `ai_request_received_at` alone and does not touch
`usage`. -/
theorem stream_tokens_state
    (impl : PState → List PubEvent × PyResult PState) (provider : String)
    (finishedAt : Int) (st : PState)
    (hrecv : ∀ s : PState,
      (stateOf (impl s).2).ai_request_received_at = s.ai_request_received_at)
    (husage : ∀ s : PState, (∀ u, s.usage = some u →
        u.totalTokens = u.promptTokens + u.completionTokens) →
      ∀ u, (stateOf (impl s).2).usage = some u →
        u.totalTokens = u.promptTokens + u.completionTokens) :
    (stateOf (stream_tokens impl provider finishedAt st).2).ai_request_received_at
      = st.ai_request_received_at ∧
    (stateOf (stream_tokens impl provider finishedAt st).2).ai_request_finished_at
      = some finishedAt ∧
    ((∀ u, st.usage = some u →
        u.totalTokens = u.promptTokens + u.completionTokens) →
      ∀ u, (stateOf (stream_tokens impl provider finishedAt st).2).usage
          = some u →
        u.totalTokens = u.promptTokens + u.completionTokens) := by
  unfold stream_tokens
  rcases hr : impl { st with stream_active := true } with ⟨pubs, r⟩
  have h1 := hrecv { st with stream_active := true }
  have h2 := husage { st with stream_active := true }
  rw [hr] at h1 h2
  simp only [hr]
  cases r with
  | ok st' => exact ⟨h1, rfl, fun hst => h2 hst⟩
  | exn e st' => exact ⟨h1, rfl, fun hst => h2 hst⟩

/-- `process` together with a well-behaved adapter: the received
timestamp is sampled at `clock 0`, the finished one (when set) at
`clock 1`, and any stored usage is sum-consistent. -/
theorem process_run_state
    (impl : PState → List PubEvent × PyResult PState) (provider : String)
    (clock : Nat → Int) (req : Request)
    (hmono : ∀ i j : Nat, i ≤ j → clock i ≤ clock j)
    (hrecv : ∀ s : PState,
      (stateOf (impl s).2).ai_request_received_at = s.ai_request_received_at)
    (husage : ∀ s : PState, (∀ u, s.usage = some u →
        u.totalTokens = u.promptTokens + u.completionTokens) →
      ∀ u, (stateOf (impl s).2).usage = some u →
        u.totalTokens = u.promptTokens + u.completionTokens) :
    (∀ t1 t2 : Int,
      (stateOf (process_run impl provider clock req).2).ai_request_received_at
        = some t1 →
      (stateOf (process_run impl provider clock req).2).ai_request_finished_at
        = some t2 → t1 ≤ t2) ∧
    (∀ u, (stateOf (process_run impl provider clock req).2).usage = some u →
      u.totalTokens = u.promptTokens + u.completionTokens) := by
  unfold process_run
  cases hval : validate_request (init_state req provider (clock 0)) with
  | error e =>
    simp only [hval]
    refine ⟨fun t1 t2 h1 h2 => ?_, fun u hu => ?_⟩
    · simp [stateOf, init_state] at h2
    · simp [stateOf, init_state] at hu
  | ok st1 =>
    try simp only [hval]
    have hst1 : st1 = init_state req provider (clock 0) := by
      unfold validate_request at hval
      split_ifs at hval
      injection hval with h'
      exact h'.symm
    rcases hstream : stream_tokens impl provider (clock 1) st1
      with ⟨pubs, r⟩
    have hstate := stream_tokens_state impl provider (clock 1) st1
      hrecv husage
    rw [hstream] at hstate
    try simp only [hstream]
    obtain ⟨g1, g2, g3⟩ := hstate
    have husage1 : ∀ u, st1.usage = some u →
        u.totalTokens = u.promptTokens + u.completionTokens := by
      rw [hst1]
      intro u hu
      simp [init_state] at hu
    cases r with
    | ok st2 =>
      refine ⟨fun t1 t2 h1 h2 => ?_, fun u hu => g3 husage1 u hu⟩
      rw [g1, hst1] at h1
      rw [g2] at h2
      injection h1 with h1'
      injection h2 with h2'
      rw [← h1', ← h2']
      exact hmono 0 1 (by omega)
    | exn e st2 =>
      refine ⟨fun t1 t2 h1 h2 => ?_, fun u hu => g3 husage1 u hu⟩
      rw [g1, hst1] at h1
      rw [g2] at h2
      injection h1 with h1'
      injection h2 with h2'
      rw [← h1', ← h2']
      exact hmono 0 1 (by omega)

/-- Claim C6: for every request that reaches a terminal workflow exit
(of either adapter), `aiRequestReceivedAt ≤ aiRequestFinishedAt`
whenever both are set (the finish timestamp is recorded in the
guaranteed-release section after the received one, under a monotone
wall clock), and whenever `usage` is populated its `totalTokens` equals
`promptTokens + completionTokens`. -/
theorem claim_C6_timestamps_and_usage
    (fetch : Option (Str → Str → Attachments.FetchResult)) (env : OAIEnv)
    (envA : AnthEnv) (clock : Nat → Int) (req : Request)
    (hmono : ∀ i j : Nat, i ≤ j → clock i ≤ clock j) :
    ((∀ t1 t2 : Int,
      (stateOf (process_openai fetch env clock req).2).ai_request_received_at
        = some t1 →
      (stateOf (process_openai fetch env clock req).2).ai_request_finished_at
        = some t2 → t1 ≤ t2) ∧
    (∀ u, (stateOf (process_openai fetch env clock req).2).usage = some u →
      u.totalTokens = u.promptTokens + u.completionTokens)) ∧
    ((∀ t1 t2 : Int,
      (stateOf (process_anthropic envA clock req).2).ai_request_received_at
        = some t1 →
      (stateOf (process_anthropic envA clock req).2).ai_request_finished_at
        = some t2 → t1 ≤ t2) ∧
    (∀ u, (stateOf (process_anthropic envA clock req).2).usage = some u →
      u.totalTokens = u.promptTokens + u.completionTokens)) :=
  ⟨process_run_state (openai_stream_impl fetch env) "OpenAI" clock req hmono
      (fun s => (openai_stream_impl_preserves fetch env s).1)
      (fun s => (openai_stream_impl_preserves fetch env s).2.2),
    process_run_state (anthropic_stream_impl envA) "Anthropic" clock req hmono
      (fun s => (anthropic_stream_impl_preserves envA s).1)
      (fun s => (anthropic_stream_impl_preserves envA s).2.2)⟩

/-- Claim C6 witness: the invariants applied at the S1 OpenAI happy path
and a concrete Anthropic request, under the identity wall clock. -/
theorem claim_C6_timestamps_and_usage_witness :
    ((∀ t1 t2 : Int,
      (stateOf (process_openai none Lixpi.Claims.c6_env (fun i => (i : Int))
        (Lixpi.Claims.c_request "gpt-x")).2).ai_request_received_at
        = some t1 →
      (stateOf (process_openai none Lixpi.Claims.c6_env (fun i => (i : Int))
        (Lixpi.Claims.c_request "gpt-x")).2).ai_request_finished_at
        = some t2 → t1 ≤ t2) ∧
    (∀ u, (stateOf (process_openai none Lixpi.Claims.c6_env
        (fun i => (i : Int))
        (Lixpi.Claims.c_request "gpt-x")).2).usage = some u →
      u.totalTokens = u.promptTokens + u.completionTokens)) ∧
    ((∀ t1 t2 : Int,
      (stateOf (process_anthropic Lixpi.Claims.c1_env (fun i => (i : Int))
        (Lixpi.Claims.c_request "gpt-x")).2).ai_request_received_at
        = some t1 →
      (stateOf (process_anthropic Lixpi.Claims.c1_env (fun i => (i : Int))
        (Lixpi.Claims.c_request "gpt-x")).2).ai_request_finished_at
        = some t2 → t1 ≤ t2) ∧
    (∀ u, (stateOf (process_anthropic Lixpi.Claims.c1_env
        (fun i => (i : Int))
        (Lixpi.Claims.c_request "gpt-x")).2).usage = some u →
      u.totalTokens = u.promptTokens + u.completionTokens)) :=
  claim_C6_timestamps_and_usage none Lixpi.Claims.c6_env Lixpi.Claims.c1_env
    (fun i => (i : Int)) (Lixpi.Claims.c_request "gpt-x")
    (fun i j hij => by exact Int.ofNat_le.mpr hij)

end Lixpi.Provider

namespace Lixpi.Attachments

open Lixpi

/-- Claim C7: `resolve_image_urls` leaves `data:` URLs and all
non-`input_image` blocks unchanged; a `nats-obj://bucket/key` reference
whose fetch succeeds with non-empty bytes is rewritten in place to
`data:<mime>;base64,<b64>` (other block fields preserved by `jset`);
fetch exceptions and missing/empty objects retain the original block;
blocks are processed independently in input order; and the MIME type
comes from the magic bytes (JPEG `FF D8`, GIF `GIF8`, WEBP
`RIFF....WEBP`, defaulting to `image/png`). -/
theorem claim_C7_resolve :
    (∀ (fetch : Option (Str → Str → FetchResult)) (b : JVal),
      isInputImage b = false → resolve_block fetch b = .ok b) ∧
    (∀ (fetch : Option (Str → Str → FetchResult))
      (fields : List (String × JVal)) (url : Str),
      isStrEq (jget fields "type") "input_image" = true →
      jgetD fields "image_url" (jstr "") = .str url →
      (lit "data:").isPrefixOf url = true →
      resolve_block fetch (.obj fields) = .ok (.obj fields)) ∧
    (∀ (f : Str → Str → FetchResult) (fields : List (String × JVal))
      (url bucket key : Str) (data : Bytes),
      isStrEq (jget fields "type") "input_image" = true →
      jgetD fields "image_url" (jstr "") = .str url →
      (lit "data:").isPrefixOf url = false →
      parse_nats_object_ref url = some (bucket, key) →
      f bucket key = .ok data → data ≠ [] →
      resolve_block (some f) (.obj fields) =
        .ok (.obj (jset fields "image_url" (.str (lit "data:" ++
          detect_mime data ++ lit ";base64," ++ B64.b64encode data))))) ∧
    (∀ (f : Str → Str → FetchResult) (fields : List (String × JVal))
      (url bucket key : Str),
      isStrEq (jget fields "type") "input_image" = true →
      jgetD fields "image_url" (jstr "") = .str url →
      (lit "data:").isPrefixOf url = false →
      parse_nats_object_ref url = some (bucket, key) →
      (f bucket key = .exc ∨ f bucket key = .ok []) →
      resolve_block (some f) (.obj fields) = .ok (.obj fields)) ∧
    (∀ fetch, resolve_image_urls (.arr []) fetch = .ok (.arr [])) ∧
    (∀ (fetch : Option (Str → Str → FetchResult)) (b : JVal)
      (rest : List JVal) (rb : JVal) (rrest : List JVal),
      resolve_block fetch b = .ok rb →
      resolve_blocks fetch rest = .ok rrest →
      resolve_image_urls (.arr (b :: rest)) fetch =
        .ok (.arr (rb :: rrest))) ∧
    (∀ data : Bytes, data.length > 4 → data.take 2 = [0xff, 0xd8] →
      detect_mime data = lit "image/jpeg") ∧
    (∀ data : Bytes, data.length > 4 → data.take 4 = [71, 73, 70, 56] →
      detect_mime data = lit "image/gif") ∧
    (∀ data : Bytes, data.length > 12 → data.take 4 = [82, 73, 70, 70] →
      (data.drop 8).take 4 = [87, 69, 66, 80] →
      detect_mime data = lit "image/webp") ∧
    (∀ data : Bytes, data.take 2 ≠ [0xff, 0xd8] →
      data.take 4 ≠ [71, 73, 70, 56] → data.take 4 ≠ [82, 73, 70, 70] →
      detect_mime data = lit "image/png") := by
  refine ⟨?_, ?_, ?_, ?_, ?_, ?_, ?_, ?_, ?_, ?_⟩
  · intro fetch b hni
    cases b with
    | obj fields =>
      have hni' : isStrEq (jget fields "type") "input_image" = false := hni
      show (if isStrEq (jget fields "type") "input_image" = true then _
        else Except.ok (JVal.obj fields)) = Except.ok (JVal.obj fields)
      rw [if_neg (by simp [hni'])]
    | null => rfl
    | bool b => rfl
    | num n => rfl
    | str s => rfl
    | arr xs => rfl
  · intro fetch fields url hty hurl hpre
    simp only [resolve_block, if_pos hty, hurl, if_pos hpre]
  · intro f fields url bucket key data hty hurl hpre hparse hf hne
    have hemp : data.isEmpty = false := by
      cases data with
      | nil => exact absurd rfl hne
      | cons a t => rfl
    simp only [resolve_block, if_pos hty, hurl, hpre, Bool.false_eq_true,
      if_false, hparse, hf, hemp]
  · intro f fields url bucket key hty hurl hpre hparse hfail
    cases hfail with
    | inl hf =>
      simp only [resolve_block, if_pos hty, hurl, hpre, Bool.false_eq_true,
        if_false, hparse, hf]
    | inr hf =>
      simp only [resolve_block, if_pos hty, hurl, hpre, Bool.false_eq_true,
        if_false, hparse, hf, List.isEmpty_nil, if_true]
  · intro fetch; rfl
  · intro fetch b rest rb rrest hb hrest
    simp only [resolve_image_urls, resolve_blocks, hb, hrest, Except.map]
  · intro data h4 hj
    unfold detect_mime
    rw [if_pos h4, if_pos hj]
  · intro data h4 hg
    have h2 : data.take 2 = [71, 73] := by
      have h := congrArg (List.take 2) hg
      rw [List.take_take] at h
      norm_num at h
      exact h
    unfold detect_mime
    rw [if_pos h4, if_neg (by rw [h2]; decide), if_pos hg]
  · intro data h12 hr hw
    have h4 : data.length > 4 := by omega
    have h2 : data.take 2 = [82, 73] := by
      have h := congrArg (List.take 2) hr
      rw [List.take_take] at h
      norm_num at h
      exact h
    unfold detect_mime
    rw [if_pos h4, if_neg (by rw [h2]; decide), if_neg (by rw [hr]; decide),
      if_pos ⟨hr, h12, hw⟩]
  · intro data hj hg hr
    unfold detect_mime
    by_cases h4 : data.length > 4
    · rw [if_pos h4, if_neg hj, if_neg hg,
        if_neg (fun hc => hr hc.1), ite_self]
    · rw [if_neg h4]

/-- Claim C7 witness: the resolution facts applied at concrete blocks —
a non-image block, a `data:` URL image, a `nats-obj://bucket/key` image
whose fetch returns five bytes (sniffed as the PNG default), the same
reference under a failing fetch, and the JPEG magic bytes. -/
theorem claim_C7_resolve_witness :
    resolve_block none (.obj [("type", jstr "input_text"),
      ("text", jstr "hi")]) = .ok (.obj [("type", jstr "input_text"),
      ("text", jstr "hi")]) ∧
    resolve_block none (.obj [("type", jstr "input_image"),
      ("image_url", jstr "data:image/png;base64,AAAA")]) =
      .ok (.obj [("type", jstr "input_image"),
        ("image_url", jstr "data:image/png;base64,AAAA")]) ∧
    resolve_block (some (fun _ _ => FetchResult.ok [1, 2, 3, 4, 5]))
      (.obj [("type", jstr "input_image"),
        ("image_url", jstr "nats-obj://bucket/key")]) =
      .ok (.obj (jset [("type", jstr "input_image"),
        ("image_url", jstr "nats-obj://bucket/key")] "image_url"
        (.str (lit "data:" ++ detect_mime [1, 2, 3, 4, 5] ++
          lit ";base64," ++ B64.b64encode [1, 2, 3, 4, 5])))) ∧
    resolve_block (some (fun _ _ => FetchResult.exc))
      (.obj [("type", jstr "input_image"),
        ("image_url", jstr "nats-obj://bucket/key")]) =
      .ok (.obj [("type", jstr "input_image"),
        ("image_url", jstr "nats-obj://bucket/key")]) ∧
    detect_mime [255, 216, 0, 0, 0] = lit "image/jpeg" :=
  ⟨claim_C7_resolve.1 none (.obj [("type", jstr "input_text"),
      ("text", jstr "hi")]) rfl,
    claim_C7_resolve.2.1 none [("type", jstr "input_image"),
      ("image_url", jstr "data:image/png;base64,AAAA")]
      (lit "data:image/png;base64,AAAA") rfl rfl rfl,
    claim_C7_resolve.2.2.1 (fun _ _ => FetchResult.ok [1, 2, 3, 4, 5])
      [("type", jstr "input_image"),
        ("image_url", jstr "nats-obj://bucket/key")]
      (lit "nats-obj://bucket/key") (lit "bucket") (lit "key")
      [1, 2, 3, 4, 5] rfl rfl rfl rfl rfl (by decide),
    claim_C7_resolve.2.2.2.1 (fun _ _ => FetchResult.exc)
      [("type", jstr "input_image"),
        ("image_url", jstr "nats-obj://bucket/key")]
      (lit "nats-obj://bucket/key") (lit "bucket") (lit "key")
      rfl rfl rfl rfl (Or.inl rfl),
    claim_C7_resolve.2.2.2.2.2.2.1 [255, 216, 0, 0, 0] (by decide)
      rfl⟩

end Lixpi.Attachments

namespace Lixpi.B64

open Lixpi

/-- The 6-bit groups of valid bytes are below 64. -/
theorem b64Indices_lt (data : Bytes) (h : ∀ b ∈ data, b < 256) :
    ∀ i ∈ b64Indices data, i < 64 := by
  induction data using b64Indices.induct with
  | case1 => intro i hi; cases hi
  | case2 b1 =>
    have hb1 : b1 < 256 := h b1 (by simp)
    intro i hi
    simp only [b64Indices, List.mem_cons, List.not_mem_nil, or_false] at hi
    rcases hi with h' | h' <;> subst h' <;> omega
  | case3 b1 b2 =>
    have hb1 : b1 < 256 := h b1 (by simp)
    have hb2 : b2 < 256 := h b2 (by simp)
    intro i hi
    simp only [b64Indices, List.mem_cons, List.not_mem_nil, or_false] at hi
    rcases hi with h' | h' | h' <;> subst h' <;> omega
  | case4 b1 b2 b3 rest ih =>
    have hb1 : b1 < 256 := h b1 (by simp)
    have hb2 : b2 < 256 := h b2 (by simp)
    have hb3 : b3 < 256 := h b3 (by simp)
    have hrest : ∀ b ∈ rest, b < 256 := fun b hb => h b (by simp [hb])
    intro i hi
    simp only [b64Indices, List.mem_cons] at hi
    rcases hi with h' | h' | h' | h' | h'
    · subst h'; omega
    · subst h'; omega
    · subst h'; omega
    · subst h'; omega
    · exact ih hrest i h'

/-- Decoding the 6-bit groups of valid bytes restores the bytes. -/
theorem b64DeIndices_b64Indices (data : Bytes)
    (h : ∀ b ∈ data, b < 256) :
    b64DeIndices (b64Indices data) = some data := by
  induction data using b64Indices.induct with
  | case1 => rfl
  | case2 b1 =>
    have hb1 : b1 < 256 := h b1 (by simp)
    show some [b1 / 4 * 4 + b1 % 4 * 16 / 16] = some [b1]
    congr 2
    omega
  | case3 b1 b2 =>
    have hb1 : b1 < 256 := h b1 (by simp)
    have hb2 : b2 < 256 := h b2 (by simp)
    show some [b1 / 4 * 4 + (b1 % 4 * 16 + b2 / 16) / 16,
      (b1 % 4 * 16 + b2 / 16) % 16 * 16 + b2 % 16 * 4 / 4] = some [b1, b2]
    congr 3
    · omega
    · omega
  | case4 b1 b2 b3 rest ih =>
    have hb1 : b1 < 256 := h b1 (by simp)
    have hb2 : b2 < 256 := h b2 (by simp)
    have hb3 : b3 < 256 := h b3 (by simp)
    have hrest : ∀ b ∈ rest, b < 256 := fun b hb => h b (by simp [hb])
    have hr := ih hrest
    show (b64DeIndices (b64Indices rest)).map (fun bs =>
      (b1 / 4 * 4 + (b1 % 4 * 16 + b2 / 16) / 16) ::
      ((b1 % 4 * 16 + b2 / 16) % 16 * 16 + (b2 % 16 * 4 + b3 / 64) / 4) ::
      ((b2 % 16 * 4 + b3 / 64) % 4 * 64 + b3 % 64) :: bs) =
      some (b1 :: b2 :: b3 :: rest)
    rw [hr, Option.map_some']
    congr 2
    · omega
    · congr 1
      · omega
      · congr 1
        omega

/-- Looking an alphabet character back up restores its index. -/
theorem b64urlIndex_getD : ∀ i, i < 64 →
    b64urlIndex (urlAlphabet.getD i 'A') = some i := by decide

/-- Character-mapping valid indices through the alphabet is reversible. -/
theorem b64urlIndices_map (is : List Nat) (h : ∀ i ∈ is, i < 64) :
    b64urlIndices (is.map (fun i => urlAlphabet.getD i 'A')) = some is := by
  induction is with
  | nil => rfl
  | cons i t ih =>
    have hi : i < 64 := h i (by simp)
    have ht : ∀ j ∈ t, j < 64 := fun j hj => h j (by simp [hj])
    show b64urlIndices (urlAlphabet.getD i 'A' ::
      t.map (fun j => urlAlphabet.getD j 'A')) = some (i :: t)
    unfold b64urlIndices
    rw [b64urlIndex_getD i hi, ih ht]

/-- Base64url round-trip: decoding the unpadded URL-safe encoding of
valid bytes restores the bytes. -/
theorem b64urlDecode_b64urlEncode (data : Bytes)
    (h : ∀ b ∈ data, b < 256) :
    b64urlDecode (b64urlEncode data) = some data := by
  unfold b64urlDecode b64urlEncode
  rw [b64urlIndices_map (b64Indices data) (b64Indices_lt data h)]
  exact b64DeIndices_b64Indices data h

/-- Every character of `getD` is in the list or is the default. -/
theorem getD_mem_or (l : Str) (n : Nat) (d : Char) :
    l.getD n d ∈ l ∨ l.getD n d = d := by
  rw [List.getD_eq_getElem?_getD]
  cases hx : l[n]? with
  | none => right; rfl
  | some x => left; exact List.getElem?_mem hx

/-- Every character of a base64url encoding is an alphabet character. -/
theorem mem_b64urlEncode (data : Bytes) (c : Char)
    (hc : c ∈ b64urlEncode data) : c ∈ urlAlphabet := by
  rcases List.mem_map.mp hc with ⟨i, _, hi⟩
  rcases getD_mem_or urlAlphabet i 'A' with h' | h'
  · exact hi ▸ h'
  · rw [← hi, h']
    decide

end Lixpi.B64

namespace Lixpi.Jwt

open Lixpi Lixpi.B64

/-- Hex digit characters are ASCII. -/
theorem hexDigitChar_lt (n : Nat) : (hexDigitChar n).toNat < 128 := by
  unfold hexDigitChar
  rcases getD_mem_or (lit "0123456789abcdef") n '0' with h | h
  · exact (by decide : ∀ c ∈ lit "0123456789abcdef", c.toNat < 128) _ h
  · rw [h]; decide

/-- `\uXXXX` escapes are ASCII. -/
theorem uEscape_lt (n : Nat) : ∀ c ∈ uEscape n, c.toNat < 128 := by
  intro c hc
  simp only [uEscape, List.mem_cons, List.not_mem_nil, or_false] at hc
  rcases hc with h | h | h | h | h | h
  · subst h; decide
  · subst h; decide
  · subst h; exact hexDigitChar_lt _
  · subst h; exact hexDigitChar_lt _
  · subst h; exact hexDigitChar_lt _
  · subst h; exact hexDigitChar_lt _

/-- `json.dumps` escaping emits only ASCII characters
(`ensure_ascii=True`). -/
theorem jsonEscapeChar_lt (c : Char) :
    ∀ x ∈ jsonEscapeChar c, x.toNat < 128 := by
  unfold jsonEscapeChar
  split_ifs with h1 h2 h3 h4 h5 h6 h7 h8 h9 <;> intro x hx
  · exact (by decide : ∀ x ∈ (['\\', '"'] : Str), x.toNat < 128) _ hx
  · exact (by decide : ∀ x ∈ (['\\', '\\'] : Str), x.toNat < 128) _ hx
  · exact (by decide : ∀ x ∈ (['\\', 'n'] : Str), x.toNat < 128) _ hx
  · exact (by decide : ∀ x ∈ (['\\', 't'] : Str), x.toNat < 128) _ hx
  · exact (by decide : ∀ x ∈ (['\\', 'r'] : Str), x.toNat < 128) _ hx
  · exact (by decide : ∀ x ∈ (['\\', 'b'] : Str), x.toNat < 128) _ hx
  · exact (by decide : ∀ x ∈ (['\\', 'f'] : Str), x.toNat < 128) _ hx
  · exact uEscape_lt _ x hx
  · rcases List.mem_append.mp hx with h | h
    · exact uEscape_lt _ x h
    · exact uEscape_lt _ x h
  · have hx' : x = c := by simpa using hx
    subst hx'
    push_neg at h8
    omega

/-- JSON string literals are ASCII. -/
theorem jsonString_lt (s : Str) : ∀ x ∈ jsonString s, x.toNat < 128 := by
  intro x hx
  unfold jsonString at hx
  rcases List.mem_cons.mp hx with h | h
  · subst h; decide
  · rcases List.mem_append.mp h with h' | h'
    · rcases List.mem_flatMap.mp h' with ⟨a, _, ha⟩
      exact jsonEscapeChar_lt a x ha
    · have hx' : x = '"' := by simpa using h'
      subst hx'; decide

/-- Decimal digits are ASCII. -/
theorem digitChar_lt (d : Nat) : (digitChar d).toNat < 128 := by
  unfold digitChar
  rcases getD_mem_or (lit "0123456789") d '0' with h | h
  · exact (by decide : ∀ c ∈ lit "0123456789", c.toNat < 128) _ h
  · rw [h]; decide

/-- Rendered naturals are ASCII. -/
theorem natToStr_lt (n : Nat) : ∀ x ∈ natToStr n, x.toNat < 128 := by
  induction n using natToStr.induct with
  | case1 n h =>
    intro x hx
    rw [natToStr, if_pos h] at hx
    have hx' : x = digitChar n := by simpa using hx
    subst hx'
    exact digitChar_lt n
  | case2 n h ih =>
    intro x hx
    rw [natToStr, if_neg h] at hx
    rcases List.mem_append.mp hx with h' | h'
    · exact ih x h'
    · have hx' : x = digitChar (n % 10) := by simpa using h'
      subst hx'
      exact digitChar_lt _
/-- Rendered integers are ASCII. -/
theorem intToStr_lt (n : Int) : ∀ x ∈ intToStr n, x.toNat < 128 := by
  intro x hx
  unfold intToStr at hx
  split_ifs at hx
  · rcases List.mem_cons.mp hx with h | h
    · subst h; decide
    · exact natToStr_lt _ x h
  · exact natToStr_lt _ x hx

/-- Serialized primitives are ASCII. -/
theorem dumpPrim_lt (p : JsonPrim) : ∀ x ∈ dumpPrim p, x.toNat < 128 := by
  cases p with
  | pstr s => exact jsonString_lt s
  | pint n => exact intToStr_lt n

/-- The comma-join of ASCII chunks is ASCII. -/
theorem joinFields_lt (l : List Str)
    (h : ∀ f ∈ l, ∀ x ∈ f, x.toNat < 128) :
    ∀ x ∈ joinFields l, x.toNat < 128 := by
  induction l using joinFields.induct with
  | case1 => intro x hx; cases hx
  | case2 f => exact h f (by simp)
  | case3 f g hne ih =>
    intro x hx
    have hj : joinFields (f :: g) = f ++ ',' :: joinFields g := by
      cases g with
      | nil => exact absurd rfl hne
      | cons a t => rfl
    rw [hj] at hx
    rcases List.mem_append.mp hx with h' | h'
    · exact h f (by simp) x h'
    · rcases List.mem_cons.mp h' with h'' | h''
      · subst h''; decide
      · exact ih (fun f' hf' => h f' (List.mem_cons_of_mem _ hf')) x h''

/-- Compact JSON dumps of flat objects are ASCII. -/
theorem json_dumps_compact_lt (fields : List (String × JsonPrim)) :
    ∀ x ∈ json_dumps_compact fields, x.toNat < 128 := by
  intro x hx
  unfold json_dumps_compact at hx
  rcases List.mem_cons.mp hx with h | h
  · subst h; decide
  · rcases List.mem_append.mp h with h' | h'
    · refine joinFields_lt _ (fun f hf => ?_) x h'
      rcases List.mem_map.mp hf with ⟨p, _, hp⟩
      subst hp
      intro y hy
      rcases List.mem_append.mp hy with h'' | h''
      · exact jsonString_lt _ y h''
      · rcases List.mem_cons.mp h'' with h3 | h3
        · subst h3; decide
        · exact dumpPrim_lt _ y h3
    · have hx' : x = '\x7d' := by simpa using h'
      subst hx'; decide

/-- UTF-8 bytes of an ASCII string are valid (`< 256`). -/
theorem strBytes_lt (s : Str) (h : ∀ c ∈ s, c.toNat < 128) :
    ∀ b ∈ strBytes s, b < 256 := by
  intro b hb
  rcases List.mem_map.mp hb with ⟨c, hc, hcb⟩
  have := h c hc
  omega

/-- Neither `.` nor `=` occurs in a base64url encoding. -/
theorem b64urlEncode_no_dot_eq (data : Bytes) :
    '.' ∉ b64urlEncode data ∧ '=' ∉ b64urlEncode data :=
  ⟨fun h => absurd (mem_b64urlEncode data _ h) (by decide),
    fun h => absurd (mem_b64urlEncode data _ h) (by decide)⟩

/-- Claim C4: for every `(seed, userId, expiryHours)` (and clock value),
`generate_self_issued_jwt` returns
`<headerB64>.<claimsB64>.<sigB64>` where each part is base64url without
`=` padding (and dot-free, so the split is unambiguous); the header
part decodes to the compact JSON of `{typ: "JWT", alg: "EdDSA"}`; the
claims part decodes to the compact JSON of an object whose `sub` is
`userId`, whose `iss` is the public key derived from the seed, and
whose `exp` is `iat + expiryHours*3600`; the third part encodes a valid
Ed25519 signature of `headerB64 ++ "." ++ claimsB64` under that key;
and the default validity is 1 hour. -/
theorem claim_C4_jwt (fromSeed : Str → NKeyPair) (nkeySeed userId : Str)
    (expiryHours now : Int) :
    generate_self_issued_jwt fromSeed nkeySeed userId expiryHours now =
      jwtSigningInput userId (fromSeed nkeySeed).publicKey now expiryHours
        ++ '.' :: b64urlEncode ((fromSeed nkeySeed).sign (strBytes
          (jwtSigningInput userId (fromSeed nkeySeed).publicKey now
            expiryHours))) ∧
    ('.' ∉ jwtHeaderB64 ∧
      '.' ∉ jwtClaimsB64 userId (fromSeed nkeySeed).publicKey now
        expiryHours ∧
      '.' ∉ b64urlEncode ((fromSeed nkeySeed).sign (strBytes
        (jwtSigningInput userId (fromSeed nkeySeed).publicKey now
          expiryHours)))) ∧
    ('=' ∉ jwtHeaderB64 ∧
      '=' ∉ jwtClaimsB64 userId (fromSeed nkeySeed).publicKey now
        expiryHours ∧
      '=' ∉ b64urlEncode ((fromSeed nkeySeed).sign (strBytes
        (jwtSigningInput userId (fromSeed nkeySeed).publicKey now
          expiryHours)))) ∧
    b64urlDecode jwtHeaderB64 =
      some (strBytes (json_dumps_compact jwtHeader)) ∧
    jwtHeader = [("typ", .pstr (lit "JWT")), ("alg", .pstr (lit "EdDSA"))] ∧
    b64urlDecode (jwtClaimsB64 userId (fromSeed nkeySeed).publicKey now
        expiryHours) =
      some (strBytes (jwtClaimsJson userId (fromSeed nkeySeed).publicKey
        now expiryHours)) ∧
    ((jwtClaims userId (fromSeed nkeySeed).publicKey now
        expiryHours).lookup "sub" = some (.pstr userId) ∧
      (jwtClaims userId (fromSeed nkeySeed).publicKey now
        expiryHours).lookup "iss" =
          some (.pstr (fromSeed nkeySeed).publicKey) ∧
      (jwtClaims userId (fromSeed nkeySeed).publicKey now
        expiryHours).lookup "iat" = some (.pint now) ∧
      (jwtClaims userId (fromSeed nkeySeed).publicKey now
        expiryHours).lookup "exp" =
          some (.pint (now + expiryHours * 3600))) ∧
    ed25519Valid (fromSeed nkeySeed)
      (strBytes (jwtSigningInput userId (fromSeed nkeySeed).publicKey now
        expiryHours))
      ((fromSeed nkeySeed).sign (strBytes (jwtSigningInput userId
        (fromSeed nkeySeed).publicKey now expiryHours))) ∧
    generate_self_issued_jwt_default fromSeed nkeySeed userId now =
      generate_self_issued_jwt fromSeed nkeySeed userId 1 now := by
  refine ⟨rfl, ⟨?_, ?_, ?_⟩, ⟨?_, ?_, ?_⟩, ?_, rfl, ?_,
    ⟨rfl, rfl, rfl, rfl⟩, rfl, rfl⟩
  · exact (b64urlEncode_no_dot_eq _).1
  · exact (b64urlEncode_no_dot_eq _).1
  · exact (b64urlEncode_no_dot_eq _).1
  · exact (b64urlEncode_no_dot_eq _).2
  · exact (b64urlEncode_no_dot_eq _).2
  · exact (b64urlEncode_no_dot_eq _).2
  · exact b64urlDecode_b64urlEncode _
      (strBytes_lt _ (json_dumps_compact_lt _))
  · exact b64urlDecode_b64urlEncode _
      (strBytes_lt _ (json_dumps_compact_lt _))

end Lixpi.Jwt
